import Mathlib

/-!
Shallow embedding of the Registry Synchronization & Renewal Notification
Engine (`app/tasks/sync_tasks.py`, `app/tasks/notification_tasks.py`,
`app/integrations/fips/scraper.py`, `app/integrations/wipo/client.py`,
`app/models/trademark.py`).

Python `date` values are modelled by their proleptic Gregorian ordinal
(`date.toordinal`), an order isomorphism under which comparison is integer
comparison, `timedelta(days=n)` addition is `+ n`, and `(d1 - d2).days` is
subtraction.  `datetime` timestamps are modelled as integer seconds.
-/

/-- Python calendar date, as year/month/day. -/
structure Date where
  year : Nat
  month : Nat
  day : Nat
deriving DecidableEq, Repr

def isLeapYear (y : Nat) : Bool :=
  (y % 4 = 0 && y % 100 != 0) || y % 400 = 0

/-- Cumulative day count before month `m` (1-based), as in Python's calendar. -/
def daysBeforeMonth (m : Nat) (leap : Bool) : Nat :=
  let base := [0, 0, 31, 59, 90, 120, 151, 181, 212, 243, 273, 304, 334].getD m 0
  if leap && m > 2 then base + 1 else base

/-- Python `date.toordinal`: day count since 0001-01-01 (which is ordinal 1). -/
def Date.toOrd (d : Date) : Int :=
  (365 * (d.year - 1) + (d.year - 1) / 4 - (d.year - 1) / 100 + (d.year - 1) / 400
    + daysBeforeMonth d.month (isLeapYear d.year) + d.day : Nat)

/-- A Python date in ordinal form. -/
abbrev PyDate := Int

/-- Seconds in one day, for `timedelta(days=n)` on timestamps. -/
def secondsPerDay : Int := 86400

/-- Python truthiness of an optional string (`None` and `""` are falsy). -/
def pyTruthy : Option String → Bool
  | none => false
  | some s => s ≠ ""

/-- Python `a or b` on optional strings: `a` when truthy, else `b`. -/
def pyOrStr (a b : Option String) : Option String :=
  if pyTruthy a then a else b

/-! ## Data model (`app/models/trademark.py`)

Enum string values, and the `TrademarkRegistration`, `Notification` and
`SyncLog` rows restricted to the fields the sync / notification engine
reads or writes. -/

def RenewalStatus.ACTIVE : String := "active"
def RenewalStatus.RENEWAL_FILED : String := "renewal_filed"
def RenewalStatus.NOT_RENEWING : String := "not_renewing"
def RenewalStatus.EXPIRED : String := "expired"

def RegistrationStatus.PENDING : String := "pending"
def RegistrationStatus.REGISTERED : String := "registered"
def RegistrationStatus.REJECTED : String := "rejected"
def RegistrationStatus.TERMINATED : String := "terminated"

def NotificationType.EXPIRATION_180 : String := "expiration_180"
def NotificationType.EXPIRATION_90 : String := "expiration_90"
def NotificationType.EXPIRATION_30 : String := "expiration_30"

/-- `TrademarkRegistration` row (fields used by the engine). -/
structure Registration where
  id : Nat
  registration_number : Option String
  madrid_registration_number : Option String
  registration_date : Option PyDate
  expiration_date : Option PyDate
  is_national : Bool
  is_international : Bool
  status : String
  renewal_status : String
  last_sync_at : Option Int
  last_sync_source : Option String
deriving DecidableEq, Repr

/-- `Notification` row (fields used by the scheduler). -/
structure Notif where
  registration_id : Nat
  notification_type : String
  trigger_date : PyDate
  scheduled_send_date : PyDate
  email_status : Option String
  telegram_status : Option String
  created_at : Int
deriving DecidableEq, Repr

/-- One entry of a reconciliation ChangeSet dict, in insertion order. -/
inductive ChangeEntry where
  | expiration (old : Option PyDate) (new : PyDate)
  | status (old : String) (new : String)
  | regDate (old : Option PyDate) (new : PyDate)
  | goodsServices (classes : List Nat)
  | image (path : String)
deriving DecidableEq, Repr

/-- `SyncLog` row (fields written by `_log_sync_result`). -/
structure SyncLogEntry where
  registration_id : Option Nat
  source : String
  operation : String
  status : String
  changes_detected : Option (List ChangeEntry)
  error_message : Option String
deriving DecidableEq, Repr

/-! ## Registry records (`FIPSTrademarkData`, `WIPOTrademarkData`)

Only the fields consumed by `_update_registration_from_fips` /
`_update_registration_from_wipo` and the sync wrappers.  A Python dict
`goods_services : dict[int, str]` is modelled as an association list in
insertion order, so `list(d.keys())` is `map Prod.fst`. -/

structure FIPSTrademarkData where
  registration_number : String
  status : Option String
  registration_date : Option PyDate
  expiration_date : Option PyDate
  goods_services : Option (List (Nat × String))
  image_url : Option String
  error : Option String
deriving DecidableEq, Repr

structure WIPOTrademarkData where
  international_number : String
  status : Option String
  registration_date : Option PyDate
  expiration_date : Option PyDate
  image_url : Option String
  error : Option String
deriving DecidableEq, Repr

/-- Python truthiness of `fips_data.goods_services` (`None` and `{}` falsy). -/
def gsTruthy : Option (List (Nat × String)) → Bool
  | none => false
  | some gs => gs ≠ []

/-! ## Status lookup tables (`_map_fips_status`, `_map_wipo_status`) -/

/-- Python `str.lower()`, character by character.  (`Char.toLower` covers
the ASCII range, which contains every keyword these lookups compare
against; non-ASCII strings simply miss every table key either way.) -/
def pyLower (s : String) : String :=
  ⟨s.data.map Char.toLower⟩

/-- `_map_fips_status`: dict lookup on the lower-cased FIPS status. -/
def map_fips_status (fips_status : String) : Option String :=
  let k := pyLower fips_status
  if k = "registered" then some RegistrationStatus.REGISTERED
  else if k = "pending" then some RegistrationStatus.PENDING
  else if k = "rejected" then some RegistrationStatus.REJECTED
  else if k = "terminated" then some RegistrationStatus.TERMINATED
  else if k = "expired" then some RegistrationStatus.TERMINATED
  else none

/-- `_map_wipo_status`: dict lookup on the lower-cased WIPO status. -/
def map_wipo_status (wipo_status : String) : Option String :=
  let k := pyLower wipo_status
  if k = "registered" then some RegistrationStatus.REGISTERED
  else if k = "pending" then some RegistrationStatus.PENDING
  else if k = "rejected" then some RegistrationStatus.REJECTED
  else if k = "terminated" then some RegistrationStatus.TERMINATED
  else if k = "expired" then some RegistrationStatus.TERMINATED
  else none

/-! ## Reconciliation (`_update_registration_from_fips`, `_update_registration_from_wipo`)

Each field comparison of the Python code becomes one small applier; the
update functions chain them in source order and finally set
`last_sync_at` / `last_sync_source`.  The `goods_services_updated` key is
appended whenever the fetched record carries a (truthy, i.e. non-empty)
goods/services dict, mirroring lines 141-143 of `sync_tasks.py`. -/

/-- `if data.expiration_date and data.expiration_date != registration.expiration_date`. -/
def applyExpiration (reg : Registration) (d : Option PyDate) : Registration × List ChangeEntry :=
  match d with
  | some e =>
    if some e ≠ reg.expiration_date then
      ({ reg with expiration_date := some e }, [ChangeEntry.expiration reg.expiration_date e])
    else (reg, [])
  | none => (reg, [])

/-- `if data.status: new_status = map(status); if new_status and new_status != registration.status`. -/
def applyStatus (statusMap : String → Option String) (reg : Registration) (s : Option String) :
    Registration × List ChangeEntry :=
  match s with
  | none => (reg, [])
  | some str =>
    if str = "" then (reg, [])
    else
      match statusMap str with
      | none => (reg, [])
      | some ns =>
        if ns ≠ "" ∧ ns ≠ reg.status then
          ({ reg with status := ns }, [ChangeEntry.status reg.status ns])
        else (reg, [])

/-- `if data.registration_date and data.registration_date != registration.registration_date`. -/
def applyRegDate (reg : Registration) (d : Option PyDate) : Registration × List ChangeEntry :=
  match d with
  | some e =>
    if some e ≠ reg.registration_date then
      ({ reg with registration_date := some e }, [ChangeEntry.regDate reg.registration_date e])
    else (reg, [])
  | none => (reg, [])

/-- `_update_registration_from_fips` (lines 91-145): returns the mutated
registration and the `changes` dict in insertion order. -/
def update_registration_from_fips (reg : Registration) (fips_data : FIPSTrademarkData)
    (now : Int) : Registration × List ChangeEntry :=
  let p1 := applyExpiration reg fips_data.expiration_date
  let p2 := applyStatus map_fips_status p1.1 fips_data.status
  let p3 := applyRegDate p2.1 fips_data.registration_date
  let gsChanges :=
    if gsTruthy fips_data.goods_services then
      [ChangeEntry.goodsServices ((fips_data.goods_services.getD []).map Prod.fst)]
    else []
  ({ p3.1 with last_sync_at := some now, last_sync_source := some "fips" },
   p1.2 ++ p2.2 ++ p3.2 ++ gsChanges)

/-- `_update_registration_from_wipo` (lines 178-218): expiration and status
only; `registration_date` is not reconciled and there is no goods/services
merge. -/
def update_registration_from_wipo (reg : Registration) (wipo_data : WIPOTrademarkData)
    (now : Int) : Registration × List ChangeEntry :=
  let p1 := applyExpiration reg wipo_data.expiration_date
  let p2 := applyStatus map_wipo_status p1.1 wipo_data.status
  ({ p2.1 with last_sync_at := some now, last_sync_source := some "wipo" }, p1.2 ++ p2.2)

/-! ## Per-registration sync (`_sync_fips_registration`, `_sync_wipo_registration`)

The network fetch and the image-storage collaborator are the environment:
a fetch either yields the client's record (whose `error` slot may be set)
or raises, and `image_stored` is the path returned by
`download_and_upload_image` (`none` when storage failed or was not
consulted). -/

/-- Outcome of `get_trademark_by_number` as seen by the sync task: the
returned record, or an exception propagating out of the `try` block before
reconciliation ran. -/
inductive FetchOutcome (α : Type) where
  | data (d : α)
  | raised (msg : String)
deriving DecidableEq, Repr

/-- The per-registration `result` dict of the sync tasks. -/
structure SyncResult where
  registration_id : Nat
  status : String
  changes : List ChangeEntry
  message : String
deriving DecidableEq, Repr

/-- `_sync_fips_registration` (lines 245-335): result dict, appended
`SyncLog` rows, and the registration row after the run. -/
def sync_fips_registration (reg : Registration) (fetch : FetchOutcome FIPSTrademarkData)
    (image_stored : Option String) (now : Int) :
    SyncResult × List SyncLogEntry × Registration :=
  if ¬ pyTruthy reg.registration_number then
    (⟨reg.id, "skipped", [], "No registration number"⟩, [], reg)
  else
    match fetch with
    | FetchOutcome.raised msg =>
      (⟨reg.id, "error", [], msg⟩,
       [⟨some reg.id, "fips", "status_check", "failed", none, some msg⟩], reg)
    | FetchOutcome.data d =>
      match d.error with
      | some e =>
        (⟨reg.id, "error", [], e⟩,
         [⟨some reg.id, "fips", "status_check", "failed", none, some e⟩], reg)
      | none =>
        let upd := update_registration_from_fips reg d now
        let changes :=
          if pyTruthy d.image_url then
            match image_stored with
            | some p => upd.2 ++ [ChangeEntry.image p]
            | none => upd.2
          else upd.2
        (⟨reg.id, if changes ≠ [] then "updated" else "unchanged", changes, ""⟩,
         [⟨some reg.id, "fips", "status_check", "success",
           if changes ≠ [] then some changes else none, none⟩], upd.1)

/-- `_sync_wipo_registration` (lines 338-428); the lookup key is
`madrid_registration_number or registration_number`. -/
def sync_wipo_registration (reg : Registration) (fetch : FetchOutcome WIPOTrademarkData)
    (image_stored : Option String) (now : Int) :
    SyncResult × List SyncLogEntry × Registration :=
  if ¬ pyTruthy (pyOrStr reg.madrid_registration_number reg.registration_number) then
    (⟨reg.id, "skipped", [], "No international registration number"⟩, [], reg)
  else
    match fetch with
    | FetchOutcome.raised msg =>
      (⟨reg.id, "error", [], msg⟩,
       [⟨some reg.id, "wipo", "status_check", "failed", none, some msg⟩], reg)
    | FetchOutcome.data d =>
      match d.error with
      | some e =>
        (⟨reg.id, "error", [], e⟩,
         [⟨some reg.id, "wipo", "status_check", "failed", none, some e⟩], reg)
      | none =>
        let upd := update_registration_from_wipo reg d now
        let changes :=
          if pyTruthy d.image_url then
            match image_stored with
            | some p => upd.2 ++ [ChangeEntry.image p]
            | none => upd.2
          else upd.2
        (⟨reg.id, if changes ≠ [] then "updated" else "unchanged", changes, ""⟩,
         [⟨some reg.id, "wipo", "status_check", "success",
           if changes ≠ [] then some changes else none, none⟩], upd.1)

/-- Batch body shared by `sync_fips_trademarks`, `sync_priority_registrations`
and `sync_single_registration`: each selected registration goes through
`_sync_fips_registration` with its own environment. -/
def sync_fips_batch (items : List (Registration × FetchOutcome FIPSTrademarkData × Option String))
    (now : Int) : List (SyncResult × List SyncLogEntry × Registration) :=
  items.map fun it => sync_fips_registration it.1 it.2.1 it.2.2 now

def sync_wipo_batch (items : List (Registration × FetchOutcome WIPOTrademarkData × Option String))
    (now : Int) : List (SyncResult × List SyncLogEntry × Registration) :=
  items.map fun it => sync_wipo_registration it.1 it.2.1 it.2.2 now

/-! ## Candidate selection (`_get_registrations_for_sync`, lines 20-64)

The SQL `ORDER BY expiration_date ASC NULLS LAST, last_sync_at ASC NULLS
FIRST ... LIMIT limit` is modelled as a merge sort under the corresponding
lexicographic Boolean order followed by `take`. -/

/-- `expiration_date ASC NULLS LAST` as a total Boolean order on options. -/
def optExpLe (a b : Option Int) : Bool :=
  match a, b with
  | none, none => true
  | none, some _ => false
  | some _, none => true
  | some x, some y => x ≤ y

/-- `last_sync_at ASC NULLS FIRST` as a total Boolean order on options. -/
def optSyncLe (a b : Option Int) : Bool :=
  match a, b with
  | none, _ => true
  | some _, none => false
  | some x, some y => x ≤ y

/-- Lexicographic key order: expiration first (nulls last), ties broken by
last sync time (nulls first). -/
def keyLe (e1 s1 e2 s2 : Option Int) : Bool :=
  if e1 = e2 then optSyncLe s1 s2 else optExpLe e1 e2

def sync_le (a b : Registration) : Bool :=
  keyLe a.expiration_date a.last_sync_at b.expiration_date b.last_sync_at

/-- `_get_registrations_for_sync`: source filter, priority ordering, limit. -/
def get_registrations_for_sync (regs : List Registration) (source : String)
    (limit : Nat) (priority_first : Bool) : List Registration :=
  let filtered :=
    if source = "fips" then
      regs.filter fun r => r.is_national && decide (r.renewal_status = RenewalStatus.ACTIVE)
    else if source = "wipo" then
      regs.filter fun r => r.is_international && decide (r.renewal_status = RenewalStatus.ACTIVE)
    else regs
  let ordered :=
    if priority_first then filtered.mergeSort sync_le
    else filtered.mergeSort fun a b => optSyncLe a.last_sync_at b.last_sync_at
  ordered.take limit

/-! ## FIPS fetch loop (`FIPSScraper.get_trademark_by_number`, lines 107-173)

The external world supplies one `FipsAttempt` outcome per loop iteration;
the function returns the record handed back to the caller and the number
of attempts actually consumed.  A `notFound` page and a successful
extraction both return from inside the loop; HTTP errors, timeouts and
other exceptions set `result.error` and fall through to the next attempt
(bounded by `retries`). -/

inductive FipsAttempt where
  | notFound
  | httpError (code : Nat)
  | timeout (msg : String)
  | exc (msg : String)
  | ok (d : FIPSTrademarkData)
deriving DecidableEq, Repr

/-- The `result` skeleton built at function entry, carrying only the
requested number and the latest error. -/
def fipsEmptyResult (registration_number : String) (error : Option String) : FIPSTrademarkData :=
  ⟨registration_number, none, none, none, none, none, error⟩

/-- The retry loop of `get_trademark_by_number`; `fuel` is the remaining
iteration count of `for attempt in range(retries)`. -/
def fips_fetch_loop (registration_number : String) (outcomes : List FipsAttempt)
    (fuel : Nat) (err : Option String) : FIPSTrademarkData × Nat :=
  match fuel, outcomes with
  | 0, _ => (fipsEmptyResult registration_number err, 0)
  | _ + 1, [] => (fipsEmptyResult registration_number err, 0)
  | f + 1, o :: rest =>
    match o with
    | FipsAttempt.notFound =>
      (fipsEmptyResult registration_number (some "Trademark not found"), 1)
    | FipsAttempt.httpError code =>
      let r := fips_fetch_loop registration_number rest f (some ("HTTP " ++ toString code))
      (r.1, r.2 + 1)
    | FipsAttempt.timeout msg =>
      let r := fips_fetch_loop registration_number rest f (some ("Timeout: " ++ msg))
      (r.1, r.2 + 1)
    | FipsAttempt.exc msg =>
      let r := fips_fetch_loop registration_number rest f (some msg)
      (r.1, r.2 + 1)
    | FipsAttempt.ok d => (d, 1)

/-- `get_trademark_by_number` with its default of 3 retries. -/
def fips_get_trademark_by_number (registration_number : String)
    (outcomes : List FipsAttempt) (retries : Nat) : FIPSTrademarkData × Nat :=
  fips_fetch_loop registration_number outcomes retries none

/-! ## FIPS status normalisation (`FIPSScraper._normalize_status`, lines 389-404)

Python `word in status_lower` is substring containment, modelled on the
character lists. -/

def charListPrefixEq (sub hay : List Char) : Bool :=
  match sub, hay with
  | [], _ => true
  | _ :: _, [] => false
  | c :: cs, d :: ds => c = d && charListPrefixEq cs ds

def charListContains (sub : List Char) : List Char → Bool
  | [] => charListPrefixEq sub []
  | d :: ds => charListPrefixEq sub (d :: ds) || charListContains sub ds

/-- Python `sub in s` on strings. -/
def pyStrContains (sub s : String) : Bool :=
  charListContains sub.data s.data

/-- `FIPSScraper._normalize_status`: first matching keyword group wins,
unmatched strings pass through verbatim. -/
def fips_normalize_status (status : String) : String :=
  let sl := pyLower status
  if ["действует", "зарегистрирован", "active"].any (fun w => pyStrContains w sl) then
    "registered"
  else if ["прекращ", "аннулир", "terminated"].any (fun w => pyStrContains w sl) then
    "terminated"
  else if ["истек", "expired"].any (fun w => pyStrContains w sl) then
    "expired"
  else if ["делопроизводств", "pending"].any (fun w => pyStrContains w sl) then
    "pending"
  else if ["отказ", "rejected"].any (fun w => pyStrContains w sl) then
    "rejected"
  else status

/-! ## Notification scheduler (`app/tasks/notification_tasks.py`)

`date.today()` is the ordinal `today`; `datetime.now(timezone.utc)` is the
timestamp `now` (seconds).  The channel sends are the environment: a
function giving each registration its `(email_sent, telegram_sent)`
outcome.  The Notification table is the list `db`, appended in creation
order. -/

/-- `_get_expiring_registrations`: active registrations whose expiration
falls within `[today, today + days]`, soonest first.  SQL comparisons
against a NULL `expiration_date` are not satisfied. -/
def get_expiring_registrations (regs : List Registration) (days : Int)
    (today : PyDate) : List Registration :=
  (regs.filter fun r =>
    match r.expiration_date with
    | some e =>
      decide (e ≤ today + days) && decide (today ≤ e) &&
        decide (r.renewal_status = RenewalStatus.ACTIVE)
    | none => false).mergeSort fun a b => optExpLe a.expiration_date b.expiration_date

/-- `_check_notification_exists`: a notification of the same type for the
same registration with `created_at >= now - within_days days` exists. -/
def check_notification_exists (db : List Notif) (registration_id : Nat)
    (notification_type : String) (now : Int) (within_days : Int) : Bool :=
  db.any fun n =>
    decide (n.registration_id = registration_id) &&
    decide (n.notification_type = notification_type) &&
    decide (now - within_days * secondsPerDay ≤ n.created_at)

/-- `_create_notification`: the row inserted by the sweep. -/
def create_notification (registration_id : Nat) (notification_type : String)
    (trigger_date : PyDate) (today : PyDate) (now : Int)
    (email_sent telegram_sent : Bool) : Notif :=
  { registration_id := registration_id
    notification_type := notification_type
    trigger_date := trigger_date
    scheduled_send_date := today
    email_status := if email_sent then some "sent" else none
    telegram_status := if telegram_sent then some "sent" else none
    created_at := now }

/-- `if days >= 180 / elif days >= 90 / else` at the top of
`_process_notifications_for_interval`. -/
def notification_type_for_interval (days : Int) : String :=
  if days ≥ 180 then NotificationType.EXPIRATION_180
  else if days ≥ 90 then NotificationType.EXPIRATION_90
  else NotificationType.EXPIRATION_30

/-- The days-remaining bucketing inside the sweep loop:
`>90 → 180-day, >30 → 90-day, else 30-day`. -/
def bucket_type (days_remaining : Int) : String :=
  if days_remaining > 90 then NotificationType.EXPIRATION_180
  else if days_remaining > 30 then NotificationType.EXPIRATION_90
  else NotificationType.EXPIRATION_30

/-- What one iteration of the sweep loop did with its registration. -/
inductive StepAction where
  | skippedRenewal
  | skippedWindow
  | skippedDedup
  | created (email_sent telegram_sent : Bool)
deriving DecidableEq, Repr

/-- One iteration of the `for registration in registrations` loop of
`_process_notifications_for_interval` (lines 190-246).  Channel sends
happen only on the branch that reaches them, and the created row is
committed before the next iteration's dedup check. -/
def process_registration (notification_type : String) (today : PyDate) (now : Int)
    (channels : Registration → Bool × Bool) (db : List Notif) (r : Registration) :
    List Notif × StepAction :=
  if r.renewal_status = RenewalStatus.RENEWAL_FILED ∨
     r.renewal_status = RenewalStatus.NOT_RENEWING ∨
     r.renewal_status = RenewalStatus.EXPIRED then
    (db, StepAction.skippedRenewal)
  else
    let e := r.expiration_date.getD 0
    let days_remaining := e - today
    let current_type := bucket_type days_remaining
    if current_type ≠ notification_type then (db, StepAction.skippedWindow)
    else if check_notification_exists db r.id notification_type now 7 then
      (db, StepAction.skippedDedup)
    else
      let cs := channels r
      (db ++ [create_notification r.id notification_type e today now cs.1 cs.2],
       StepAction.created cs.1 cs.2)

/-- The per-interval `stats` dict. -/
structure SweepStats where
  registrations_found : Nat
  notifications_created : Nat
  emails_sent : Nat
  telegrams_sent : Nat
  skipped : Nat
deriving DecidableEq, Repr

/-- Loop body of the sweep acting on the `(table, stats)` accumulator. -/
def sweep_step (ntype : String) (today : PyDate) (now : Int)
    (channels : Registration → Bool × Bool) (acc : List Notif × SweepStats)
    (r : Registration) : List Notif × SweepStats :=
  let step := process_registration ntype today now channels acc.1 r
  match step.2 with
  | StepAction.skippedRenewal => (step.1, { acc.2 with skipped := acc.2.skipped + 1 })
  | StepAction.skippedWindow => (step.1, acc.2)
  | StepAction.skippedDedup => (step.1, { acc.2 with skipped := acc.2.skipped + 1 })
  | StepAction.created em tg =>
    (step.1,
     { acc.2 with
       notifications_created := acc.2.notifications_created + 1
       emails_sent := acc.2.emails_sent + (if em then 1 else 0)
       telegrams_sent := acc.2.telegrams_sent + (if tg then 1 else 0) })

/-- `_process_notifications_for_interval`: fold the loop body over the
candidates fetched for this interval. -/
def process_notifications_for_interval (regs : List Registration) (days : Int)
    (today : PyDate) (now : Int) (channels : Registration → Bool × Bool)
    (db : List Notif) : List Notif × SweepStats :=
  let ntype := notification_type_for_interval days
  let candidates := get_expiring_registrations regs days today
  List.foldl (sweep_step ntype today now channels)
    (db, ⟨candidates.length, 0, 0, 0, 0⟩) candidates

/-- One invocation of the interval sweep, as scheduled by
`check_expiring_trademarks`: the registration snapshot, the interval, and
the clock readings of the run. -/
structure SweepRun where
  regs : List Registration
  days : Int
  today : PyDate
  now : Int
  channels : Registration → Bool × Bool

/-- A sequence of interval sweeps threading the Notification table. -/
def run_sweeps (runs : List SweepRun) (db : List Notif) : List Notif :=
  List.foldl
    (fun db run =>
      (process_notifications_for_interval run.regs run.days run.today run.now
        run.channels db).1)
    db runs

/-- `check_expiring_trademarks`: one daily run sweeps the intervals
`[180, 90, 30]` back to back against the same snapshot and clock. -/
def check_expiring_trademarks (regs : List Registration) (today : PyDate) (now : Int)
    (channels : Registration → Bool × Bool) (db : List Notif) : List Notif :=
  run_sweeps ([180, 90, 30].map fun days => ⟨regs, days, today, now, channels⟩) db

/-! ## Helper lemmas on the field appliers and status maps -/

theorem map_fips_status_mem_range (s ns : String) (h : map_fips_status s = some ns) :
    ns = RegistrationStatus.REGISTERED ∨ ns = RegistrationStatus.PENDING ∨
    ns = RegistrationStatus.REJECTED ∨ ns = RegistrationStatus.TERMINATED := by
  simp only [map_fips_status] at h
  split_ifs at h <;> simp_all

theorem map_wipo_status_mem_range (s ns : String) (h : map_wipo_status s = some ns) :
    ns = RegistrationStatus.REGISTERED ∨ ns = RegistrationStatus.PENDING ∨
    ns = RegistrationStatus.REJECTED ∨ ns = RegistrationStatus.TERMINATED := by
  simp only [map_wipo_status] at h
  split_ifs at h <;> simp_all

@[simp] theorem applyExpiration_status (reg : Registration) (d : Option PyDate) :
    (applyExpiration reg d).1.status = reg.status := by
  rcases d with _ | e
  · rfl
  · simp only [applyExpiration]
    split <;> rfl

@[simp] theorem applyExpiration_renewal (reg : Registration) (d : Option PyDate) :
    (applyExpiration reg d).1.renewal_status = reg.renewal_status := by
  rcases d with _ | e
  · rfl
  · simp only [applyExpiration]
    split <;> rfl

@[simp] theorem applyExpiration_regdate (reg : Registration) (d : Option PyDate) :
    (applyExpiration reg d).1.registration_date = reg.registration_date := by
  rcases d with _ | e
  · rfl
  · simp only [applyExpiration]
    split <;> rfl

@[simp] theorem applyExpiration_regnum (reg : Registration) (d : Option PyDate) :
    (applyExpiration reg d).1.registration_number = reg.registration_number := by
  rcases d with _ | e
  · rfl
  · simp only [applyExpiration]
    split <;> rfl

@[simp] theorem applyExpiration_id (reg : Registration) (d : Option PyDate) :
    (applyExpiration reg d).1.id = reg.id := by
  rcases d with _ | e
  · rfl
  · simp only [applyExpiration]
    split <;> rfl

@[simp] theorem applyStatus_renewal (m : String → Option String) (reg : Registration)
    (s : Option String) : (applyStatus m reg s).1.renewal_status = reg.renewal_status := by
  rcases s with _ | str
  · rfl
  · simp only [applyStatus]
    split
    · rfl
    · rcases hm : m str with _ | ns
      · simp [hm]
      · simp only [hm]
        split <;> rfl

@[simp] theorem applyStatus_expiration (m : String → Option String) (reg : Registration)
    (s : Option String) : (applyStatus m reg s).1.expiration_date = reg.expiration_date := by
  rcases s with _ | str
  · rfl
  · simp only [applyStatus]
    split
    · rfl
    · rcases hm : m str with _ | ns
      · simp [hm]
      · simp only [hm]
        split <;> rfl

@[simp] theorem applyStatus_regdate (m : String → Option String) (reg : Registration)
    (s : Option String) : (applyStatus m reg s).1.registration_date = reg.registration_date := by
  rcases s with _ | str
  · rfl
  · simp only [applyStatus]
    split
    · rfl
    · rcases hm : m str with _ | ns
      · simp [hm]
      · simp only [hm]
        split <;> rfl

@[simp] theorem applyStatus_regnum (m : String → Option String) (reg : Registration)
    (s : Option String) : (applyStatus m reg s).1.registration_number = reg.registration_number := by
  rcases s with _ | str
  · rfl
  · simp only [applyStatus]
    split
    · rfl
    · rcases hm : m str with _ | ns
      · simp [hm]
      · simp only [hm]
        split <;> rfl

@[simp] theorem applyStatus_id (m : String → Option String) (reg : Registration)
    (s : Option String) : (applyStatus m reg s).1.id = reg.id := by
  rcases s with _ | str
  · rfl
  · simp only [applyStatus]
    split
    · rfl
    · rcases hm : m str with _ | ns
      · simp [hm]
      · simp only [hm]
        split <;> rfl

@[simp] theorem applyRegDate_status (reg : Registration) (d : Option PyDate) :
    (applyRegDate reg d).1.status = reg.status := by
  rcases d with _ | e
  · rfl
  · simp only [applyRegDate]
    split <;> rfl

@[simp] theorem applyRegDate_renewal (reg : Registration) (d : Option PyDate) :
    (applyRegDate reg d).1.renewal_status = reg.renewal_status := by
  rcases d with _ | e
  · rfl
  · simp only [applyRegDate]
    split <;> rfl

@[simp] theorem applyRegDate_expiration (reg : Registration) (d : Option PyDate) :
    (applyRegDate reg d).1.expiration_date = reg.expiration_date := by
  rcases d with _ | e
  · rfl
  · simp only [applyRegDate]
    split <;> rfl

@[simp] theorem applyRegDate_regnum (reg : Registration) (d : Option PyDate) :
    (applyRegDate reg d).1.registration_number = reg.registration_number := by
  rcases d with _ | e
  · rfl
  · simp only [applyRegDate]
    split <;> rfl

@[simp] theorem applyRegDate_id (reg : Registration) (d : Option PyDate) :
    (applyRegDate reg d).1.id = reg.id := by
  rcases d with _ | e
  · rfl
  · simp only [applyRegDate]
    split <;> rfl

theorem applyStatus_status_cases (m : String → Option String) (reg : Registration)
    (s : Option String) :
    (applyStatus m reg s).1.status = reg.status ∨
    ∃ str ns, s = some str ∧ m str = some ns ∧ (applyStatus m reg s).1.status = ns := by
  rcases s with _ | str
  · exact Or.inl rfl
  · simp only [applyStatus]
    split
    · exact Or.inl rfl
    · rcases hm : m str with _ | ns
      · exact Or.inl (by simp [hm])
      · simp only [hm]
        split
        · exact Or.inr ⟨str, ns, rfl, hm, rfl⟩
        · exact Or.inl rfl

theorem update_fips_status_cases (reg : Registration) (d : FIPSTrademarkData) (now : Int) :
    (update_registration_from_fips reg d now).1.status = reg.status ∨
    ∃ str ns, d.status = some str ∧ map_fips_status str = some ns ∧
      (update_registration_from_fips reg d now).1.status = ns := by
  have h := applyStatus_status_cases map_fips_status
    (applyExpiration reg d.expiration_date).1 d.status
  rcases h with h | ⟨str, ns, hs, hm, h⟩
  · left
    simp only [update_registration_from_fips]
    simp [applyRegDate_status, h]
  · right
    refine ⟨str, ns, hs, hm, ?_⟩
    simp only [update_registration_from_fips]
    simp [applyRegDate_status, h]

theorem update_wipo_status_cases (reg : Registration) (d : WIPOTrademarkData) (now : Int) :
    (update_registration_from_wipo reg d now).1.status = reg.status ∨
    ∃ str ns, d.status = some str ∧ map_wipo_status str = some ns ∧
      (update_registration_from_wipo reg d now).1.status = ns := by
  have h := applyStatus_status_cases map_wipo_status
    (applyExpiration reg d.expiration_date).1 d.status
  rcases h with h | ⟨str, ns, hs, hm, h⟩
  · left
    simp only [update_registration_from_wipo]
    simp [h]
  · right
    refine ⟨str, ns, hs, hm, ?_⟩
    simp only [update_registration_from_wipo]
    simp [h]

/-- C10: every external status normalising to `expired` is stored as the
internal status `terminated`: both status lookup tables send external
`expired` and `terminated` to internal `terminated`, neither table ever
yields `expired`, and hence no reconciliation write ever sets a
registration's status to `expired`. -/
theorem expired_maps_to_terminated :
    map_fips_status "expired" = some RegistrationStatus.TERMINATED ∧
    map_fips_status "terminated" = some RegistrationStatus.TERMINATED ∧
    map_wipo_status "expired" = some RegistrationStatus.TERMINATED ∧
    map_wipo_status "terminated" = some RegistrationStatus.TERMINATED ∧
    (∀ s, fips_normalize_status s = "expired" →
      map_fips_status (fips_normalize_status s) = some RegistrationStatus.TERMINATED) ∧
    (∀ s, map_fips_status s ≠ some "expired") ∧
    (∀ s, map_wipo_status s ≠ some "expired") ∧
    (∀ reg d now, (update_registration_from_fips reg d now).1.status ≠ reg.status →
      (update_registration_from_fips reg d now).1.status ≠ "expired") ∧
    (∀ reg d now, (update_registration_from_wipo reg d now).1.status ≠ reg.status →
      (update_registration_from_wipo reg d now).1.status ≠ "expired") := by
  refine ⟨by decide, by decide, by decide, by decide, ?_, ?_, ?_, ?_, ?_⟩
  · intro s h
    rw [h]; decide
  · intro s h
    have := map_fips_status_mem_range s "expired" h
    simp only [RegistrationStatus.REGISTERED, RegistrationStatus.PENDING,
      RegistrationStatus.REJECTED, RegistrationStatus.TERMINATED] at this
    rcases this with h' | h' | h' | h' <;> exact absurd h' (by decide)
  · intro s h
    have := map_wipo_status_mem_range s "expired" h
    simp only [RegistrationStatus.REGISTERED, RegistrationStatus.PENDING,
      RegistrationStatus.REJECTED, RegistrationStatus.TERMINATED] at this
    rcases this with h' | h' | h' | h' <;> exact absurd h' (by decide)
  · intro reg d now hne
    rcases update_fips_status_cases reg d now with h | ⟨str, ns, _, hm, h⟩
    · exact absurd h hne
    · rw [h]
      intro hexp
      subst hexp
      have := map_fips_status_mem_range str "expired" hm
      simp only [RegistrationStatus.REGISTERED, RegistrationStatus.PENDING,
        RegistrationStatus.REJECTED, RegistrationStatus.TERMINATED] at this
      rcases this with h' | h' | h' | h' <;> exact absurd h' (by decide)
  · intro reg d now hne
    rcases update_wipo_status_cases reg d now with h | ⟨str, ns, _, hm, h⟩
    · exact absurd h hne
    · rw [h]
      intro hexp
      subst hexp
      have := map_wipo_status_mem_range str "expired" hm
      simp only [RegistrationStatus.REGISTERED, RegistrationStatus.PENDING,
        RegistrationStatus.REJECTED, RegistrationStatus.TERMINATED] at this
      rcases this with h' | h' | h' | h' <;> exact absurd h' (by decide)

def regW10 : Registration :=
  ⟨7, some "555", none, none, none, true, false, RegistrationStatus.PENDING,
   RenewalStatus.ACTIVE, none, none⟩

def fipsW10 : FIPSTrademarkData :=
  ⟨"555", some "expired", none, none, none, none, none⟩

theorem expired_maps_to_terminated_witness :
    (update_registration_from_fips regW10 fipsW10 0).1.status ≠ regW10.status ∧
    (update_registration_from_fips regW10 fipsW10 0).1.status ≠ "expired" :=
  ⟨by decide,
   expired_maps_to_terminated.2.2.2.2.2.2.2.1 regW10 fipsW10 0 (by decide)⟩

theorem update_fips_renewal (reg : Registration) (d : FIPSTrademarkData) (now : Int) :
    (update_registration_from_fips reg d now).1.renewal_status = reg.renewal_status := by
  simp only [update_registration_from_fips]
  simp [applyRegDate_renewal, applyStatus_renewal, applyExpiration_renewal]

theorem update_wipo_renewal (reg : Registration) (d : WIPOTrademarkData) (now : Int) :
    (update_registration_from_wipo reg d now).1.renewal_status = reg.renewal_status := by
  simp only [update_registration_from_wipo]
  simp [applyStatus_renewal, applyExpiration_renewal]

theorem sync_fips_registration_renewal (reg : Registration)
    (fetch : FetchOutcome FIPSTrademarkData) (image_stored : Option String) (now : Int) :
    (sync_fips_registration reg fetch image_stored now).2.2.renewal_status =
      reg.renewal_status := by
  unfold sync_fips_registration
  split
  · rfl
  · rcases fetch with d | msg
    · rcases hd : d.error with _ | e
      · simp only [hd]
        exact update_fips_renewal reg d now
      · simp only [hd]
    · rfl

theorem sync_wipo_registration_renewal (reg : Registration)
    (fetch : FetchOutcome WIPOTrademarkData) (image_stored : Option String) (now : Int) :
    (sync_wipo_registration reg fetch image_stored now).2.2.renewal_status =
      reg.renewal_status := by
  unfold sync_wipo_registration
  split
  · rfl
  · rcases fetch with d | msg
    · rcases hd : d.error with _ | e
      · simp only [hd]
        exact update_wipo_renewal reg d now
      · simp only [hd]
    · rfl

/-- C6: no automated sync operation ever modifies `renewal_status`: both
reconciliation functions, both per-registration sync wrappers, and the
batch drivers built on them return the registration with its
`renewal_status` unchanged, so `not_renewing`/`expired` can never be
flipped back to `active` by sync. -/
theorem sync_never_touches_renewal_status :
    (∀ reg d now, (update_registration_from_fips reg d now).1.renewal_status =
      reg.renewal_status) ∧
    (∀ reg d now, (update_registration_from_wipo reg d now).1.renewal_status =
      reg.renewal_status) ∧
    (∀ reg fetch img now, (sync_fips_registration reg fetch img now).2.2.renewal_status =
      reg.renewal_status) ∧
    (∀ reg fetch img now, (sync_wipo_registration reg fetch img now).2.2.renewal_status =
      reg.renewal_status) ∧
    (∀ items now, (sync_fips_batch items now).map (fun o => o.2.2.renewal_status) =
      items.map (fun it => it.1.renewal_status)) ∧
    (∀ items now, (sync_wipo_batch items now).map (fun o => o.2.2.renewal_status) =
      items.map (fun it => it.1.renewal_status)) := by
  refine ⟨update_fips_renewal, update_wipo_renewal, sync_fips_registration_renewal,
    sync_wipo_registration_renewal, ?_, ?_⟩
  · intro items now
    simp only [sync_fips_batch, List.map_map]
    exact List.map_congr_left fun it _ =>
      sync_fips_registration_renewal it.1 it.2.1 it.2.2 now
  · intro items now
    simp only [sync_wipo_batch, List.map_map]
    exact List.map_congr_left fun it _ =>
      sync_wipo_registration_renewal it.1 it.2.1 it.2.2 now

/-- C9: the days-remaining bucketing puts every candidate into exactly one
window (`>90` the 180-day type, `>30` the 90-day type, otherwise the
30-day type), and a candidate whose bucket differs from the interval being
processed is dropped before any send or Notification creation. -/
theorem bucketing_exactly_one_window :
    (∀ d : Int,
      (bucket_type d = NotificationType.EXPIRATION_180 ↔ 90 < d) ∧
      (bucket_type d = NotificationType.EXPIRATION_90 ↔ 30 < d ∧ d ≤ 90) ∧
      (bucket_type d = NotificationType.EXPIRATION_30 ↔ d ≤ 30)) ∧
    (∀ ntype today now channels db (r : Registration),
      bucket_type (r.expiration_date.getD 0 - today) ≠ ntype →
      (process_registration ntype today now channels db r).1 = db ∧
      ∀ em tg, (process_registration ntype today now channels db r).2 ≠
        StepAction.created em tg) := by
  constructor
  · intro d
    unfold bucket_type NotificationType.EXPIRATION_180 NotificationType.EXPIRATION_90
      NotificationType.EXPIRATION_30
    split_ifs with h1 h2 <;>
      refine ⟨?_, ?_, ?_⟩ <;>
      constructor <;>
      intro h <;>
      first
        | rfl
        | omega
        | exact absurd h (by decide)
  · intro ntype today now channels db r hne
    unfold process_registration
    split
    · exact ⟨rfl, fun em tg h => by cases h⟩
    · dsimp only
      rw [if_pos hne]
      exact ⟨rfl, fun em tg h => by cases h⟩

def regW9 : Registration :=
  ⟨8, none, none, none, some 739020, true, false, RegistrationStatus.REGISTERED,
   RenewalStatus.ACTIVE, none, none⟩

theorem bucketing_exactly_one_window_witness :
    (process_registration NotificationType.EXPIRATION_180 739000 0
      (fun _ => (true, true)) [] regW9).1 = [] ∧
    ∀ em tg, (process_registration NotificationType.EXPIRATION_180 739000 0
      (fun _ => (true, true)) [] regW9).2 ≠ StepAction.created em tg :=
  bucketing_exactly_one_window.2 NotificationType.EXPIRATION_180 739000 0
    (fun _ => (true, true)) [] regW9 (by decide)

/-- C4: a definitive not-found page makes the FIPS client return from
inside its retry loop after the current attempt, with the error slot set
and no further attempts consumed; syncing a registration whose fetch came
back with an error writes exactly one `failed` SyncLog row and returns
the registration unchanged. -/
theorem notfound_short_circuits_and_logs_failed :
    (∀ (registration_number : String) (rest : List FipsAttempt) (f : Nat),
      fips_fetch_loop registration_number (FipsAttempt.notFound :: rest) (f + 1) none =
        (fipsEmptyResult registration_number (some "Trademark not found"), 1)) ∧
    (∀ (reg : Registration) (d : FIPSTrademarkData) (img : Option String) (now : Int)
        (e : String),
      pyTruthy reg.registration_number = true → d.error = some e →
      sync_fips_registration reg (FetchOutcome.data d) img now =
        (⟨reg.id, "error", [], e⟩,
         [⟨some reg.id, "fips", "status_check", "failed", none, some e⟩], reg)) := by
  constructor
  · intro registration_number rest f
    rfl
  · intro reg d img now e h he
    unfold sync_fips_registration
    rw [if_neg (by simp [h])]
    simp only [he]

def regW4 : Registration :=
  ⟨4, some "321", none, none, none, true, false, RegistrationStatus.REGISTERED,
   RenewalStatus.ACTIVE, none, none⟩

def fipsW4 : FIPSTrademarkData := fipsEmptyResult "321" (some "Trademark not found")

theorem notfound_short_circuits_witness :
    fips_fetch_loop "321" [FipsAttempt.notFound] 3 none =
      (fipsEmptyResult "321" (some "Trademark not found"), 1) ∧
    sync_fips_registration regW4 (FetchOutcome.data fipsW4) none 0 =
      (⟨regW4.id, "error", [], "Trademark not found"⟩,
       [⟨some regW4.id, "fips", "status_check", "failed", none,
         some "Trademark not found"⟩], regW4) :=
  ⟨notfound_short_circuits_and_logs_failed.1 "321" [] 2,
   notfound_short_circuits_and_logs_failed.2 regW4 fipsW4 none 0 "Trademark not found"
     (by decide) rfl⟩

theorem applyExpiration_exp_some (reg : Registration) (e : PyDate) :
    (applyExpiration reg (some e)).1.expiration_date = some e := by
  simp only [applyExpiration]
  by_cases h : some e = reg.expiration_date
  · rw [if_neg (not_not_intro h)]
    exact h.symm
  · rw [if_pos h]

theorem applyExpiration_stable (reg reg' : Registration) (d : Option PyDate)
    (h : reg'.expiration_date = (applyExpiration reg d).1.expiration_date) :
    applyExpiration reg' d = (reg', []) := by
  rcases d with _ | e
  · rfl
  · rw [applyExpiration_exp_some] at h
    simp only [applyExpiration]
    rw [if_neg (not_not_intro h.symm)]

theorem applyRegDate_rd_some (reg : Registration) (e : PyDate) :
    (applyRegDate reg (some e)).1.registration_date = some e := by
  simp only [applyRegDate]
  by_cases h : some e = reg.registration_date
  · rw [if_neg (not_not_intro h)]
    exact h.symm
  · rw [if_pos h]

theorem applyRegDate_stable (reg reg' : Registration) (d : Option PyDate)
    (h : reg'.registration_date = (applyRegDate reg d).1.registration_date) :
    applyRegDate reg' d = (reg', []) := by
  rcases d with _ | e
  · rfl
  · rw [applyRegDate_rd_some] at h
    simp only [applyRegDate]
    rw [if_neg (not_not_intro h.symm)]

theorem applyStatus_stable (m : String → Option String) (reg reg' : Registration)
    (s : Option String) (h : reg'.status = (applyStatus m reg s).1.status) :
    applyStatus m reg' s = (reg', []) := by
  rcases s with _ | str
  · rfl
  · simp only [applyStatus] at h ⊢
    by_cases hstr : str = ""
    · rw [if_pos hstr]
    · rw [if_neg hstr] at h ⊢
      rcases hm : m str with _ | ns
      · simp only [hm]
      · simp only [hm] at h ⊢
        by_cases hc : ns ≠ "" ∧ ns ≠ reg.status
        · rw [if_pos hc] at h
          rw [if_neg]
          intro hcon
          exact hcon.2 h.symm
        · rw [if_neg hc] at h
          rw [if_neg]
          intro hcon
          exact hc ⟨hcon.1, fun heq => hcon.2 (heq.trans h.symm)⟩

@[simp] theorem update_fips_regnum (reg : Registration) (d : FIPSTrademarkData) (now : Int) :
    (update_registration_from_fips reg d now).1.registration_number =
      reg.registration_number := by
  simp only [update_registration_from_fips]
  simp

theorem update_fips_second (reg : Registration) (d : FIPSTrademarkData) (t₁ t₂ : Int)
    (hgs : gsTruthy d.goods_services = false) :
    update_registration_from_fips (update_registration_from_fips reg d t₁).1 d t₂ =
      ({ (update_registration_from_fips reg d t₁).1 with
          last_sync_at := some t₂, last_sync_source := some "fips" }, []) := by
  set r1 := (update_registration_from_fips reg d t₁).1 with hr1
  have h1 : applyExpiration r1 d.expiration_date = (r1, []) := by
    apply applyExpiration_stable reg
    rw [hr1]
    simp only [update_registration_from_fips]
    simp
  have h2 : applyStatus map_fips_status r1 d.status = (r1, []) := by
    apply applyStatus_stable map_fips_status (applyExpiration reg d.expiration_date).1
    rw [hr1]
    simp only [update_registration_from_fips]
    simp
  have h3 : applyRegDate r1 d.registration_date = (r1, []) := by
    apply applyRegDate_stable
      (applyStatus map_fips_status (applyExpiration reg d.expiration_date).1 d.status).1
    rw [hr1]
    simp only [update_registration_from_fips]
  simp only [update_registration_from_fips, h1, h2, h3, hgs]
  simp

theorem update_wipo_second (reg : Registration) (d : WIPOTrademarkData) (t₁ t₂ : Int) :
    update_registration_from_wipo (update_registration_from_wipo reg d t₁).1 d t₂ =
      ({ (update_registration_from_wipo reg d t₁).1 with
          last_sync_at := some t₂, last_sync_source := some "wipo" }, []) := by
  set r1 := (update_registration_from_wipo reg d t₁).1 with hr1
  have h1 : applyExpiration r1 d.expiration_date = (r1, []) := by
    apply applyExpiration_stable reg
    rw [hr1]
    simp only [update_registration_from_wipo]
    simp
  have h2 : applyStatus map_wipo_status r1 d.status = (r1, []) := by
    apply applyStatus_stable map_wipo_status (applyExpiration reg d.expiration_date).1
    rw [hr1]
    simp only [update_registration_from_wipo]
  simp only [update_registration_from_wipo, h1, h2]
  rfl

theorem sync_fips_success_reg (reg : Registration) (d : FIPSTrademarkData)
    (img : Option String) (now : Int) (h : pyTruthy reg.registration_number = true)
    (he : d.error = none) :
    (sync_fips_registration reg (FetchOutcome.data d) img now).2.2 =
      (update_registration_from_fips reg d now).1 := by
  unfold sync_fips_registration
  rw [if_neg (by simp [h])]
  simp only [he]

theorem sync_fips_success_status (reg : Registration) (d : FIPSTrademarkData)
    (img : Option String) (now : Int) (h : pyTruthy reg.registration_number = true)
    (he : d.error = none) (himg : pyTruthy d.image_url = false ∨ img = none) :
    (sync_fips_registration reg (FetchOutcome.data d) img now).1.status =
      (if (update_registration_from_fips reg d now).2 ≠ [] then "updated"
       else "unchanged") := by
  unfold sync_fips_registration
  rw [if_neg (by simp [h])]
  simp only [he]
  rcases himg with himg | himg
  · simp only [himg]
    rfl
  · subst himg
    cases ht : pyTruthy d.image_url
    · simp only [ht]
      rfl
    · simp only [ht]
      rfl

@[simp] theorem applyExpiration_madrid (reg : Registration) (d : Option PyDate) :
    (applyExpiration reg d).1.madrid_registration_number =
      reg.madrid_registration_number := by
  rcases d with _ | e
  · rfl
  · simp only [applyExpiration]
    split <;> rfl

@[simp] theorem applyStatus_madrid (m : String → Option String) (reg : Registration)
    (s : Option String) :
    (applyStatus m reg s).1.madrid_registration_number =
      reg.madrid_registration_number := by
  rcases s with _ | str
  · rfl
  · simp only [applyStatus]
    split
    · rfl
    · rcases hm : m str with _ | ns
      · simp [hm]
      · simp only [hm]
        split <;> rfl

@[simp] theorem update_wipo_madrid (reg : Registration) (d : WIPOTrademarkData)
    (now : Int) :
    (update_registration_from_wipo reg d now).1.madrid_registration_number =
      reg.madrid_registration_number := by
  simp only [update_registration_from_wipo]
  simp

@[simp] theorem update_wipo_regnum (reg : Registration) (d : WIPOTrademarkData)
    (now : Int) :
    (update_registration_from_wipo reg d now).1.registration_number =
      reg.registration_number := by
  simp only [update_registration_from_wipo]
  simp

theorem sync_wipo_success_reg (reg : Registration) (d : WIPOTrademarkData)
    (img : Option String) (now : Int)
    (h : pyTruthy (pyOrStr reg.madrid_registration_number reg.registration_number) = true)
    (he : d.error = none) :
    (sync_wipo_registration reg (FetchOutcome.data d) img now).2.2 =
      (update_registration_from_wipo reg d now).1 := by
  unfold sync_wipo_registration
  rw [if_neg (by simp [h])]
  simp only [he]

theorem sync_wipo_success_status (reg : Registration) (d : WIPOTrademarkData)
    (img : Option String) (now : Int)
    (h : pyTruthy (pyOrStr reg.madrid_registration_number reg.registration_number) = true)
    (he : d.error = none) (himg : pyTruthy d.image_url = false ∨ img = none) :
    (sync_wipo_registration reg (FetchOutcome.data d) img now).1.status =
      (if (update_registration_from_wipo reg d now).2 ≠ [] then "updated"
       else "unchanged") := by
  unfold sync_wipo_registration
  rw [if_neg (by simp [h])]
  simp only [he]
  rcases himg with himg | himg
  · simp only [himg]
    rfl
  · subst himg
    cases ht : pyTruthy d.image_url
    · simp only [ht]
      rfl
    · simp only [ht]
      rfl

/-- C3 counterexample: a FIPS record carrying goods/services descriptions,
fetched twice with identical content, still yields a non-empty ChangeSet
(the `goods_services_updated` key) on the second reconciliation, so the
second sync outcome is `updated`, not `unchanged`; likewise a record whose
image URL is fetched and stored again re-enters an `image` entry, making
the second sync outcome `updated` even though the reconciliation itself
found no field change. -/
def regC3 : Registration :=
  ⟨1, some "123456", none, some 738000, some 739000, true, false,
   RegistrationStatus.REGISTERED, RenewalStatus.ACTIVE, none, none⟩

def fipsC3 : FIPSTrademarkData :=
  ⟨"123456", some "registered", some 738000, some 739000,
   some [(25, "clothing")], none, none⟩

def regC3i : Registration :=
  ⟨14, some "654321", none, some 738000, some 739000, true, false,
   RegistrationStatus.REGISTERED, RenewalStatus.ACTIVE, none, none⟩

def fipsC3i : FIPSTrademarkData :=
  ⟨"654321", some "registered", some 738000, some 739000, none,
   some "https://www1.fips.ru/img/654321", none⟩

theorem second_identical_fips_changeset_nonempty :
    (update_registration_from_fips (update_registration_from_fips regC3 fipsC3 1000).1
        fipsC3 2000).2 = [ChangeEntry.goodsServices [25]] ∧
    (update_registration_from_fips (update_registration_from_fips regC3 fipsC3 1000).1
        fipsC3 2000).2 ≠ [] ∧
    (update_registration_from_fips (update_registration_from_fips regC3 fipsC3 1000).1
        fipsC3 2000).1.last_sync_at = some 2000 ∧
    (sync_fips_registration (sync_fips_registration regC3 (FetchOutcome.data fipsC3)
        none 1000).2.2 (FetchOutcome.data fipsC3) none 2000).1.status = "updated" ∧
    (update_registration_from_fips (update_registration_from_fips regC3i fipsC3i 1000).1
        fipsC3i 2000).2 = [] ∧
    (sync_fips_registration (sync_fips_registration regC3i (FetchOutcome.data fipsC3i)
        (some "trademarks/654321.png") 1000).2.2 (FetchOutcome.data fipsC3i)
        (some "trademarks/654321.png") 2000).1.changes =
      [ChangeEntry.image "trademarks/654321.png"] ∧
    (sync_fips_registration (sync_fips_registration regC3i (FetchOutcome.data fipsC3i)
        (some "trademarks/654321.png") 1000).2.2 (FetchOutcome.data fipsC3i)
        (some "trademarks/654321.png") 2000).1.status = "updated" := by
  decide

/-- C3 (amended): for a registration fetched twice in a row with identical
external data and no error, the second reconciliation yields an empty
ChangeSet and still refreshes `last_sync_at`/`last_sync_source` — for the
international source unconditionally, and for the national source
whenever the record carries no goods/services descriptions (a non-empty
`goods_services` dict re-enters the ChangeSet on every sync).  The second
sync outcome is `unchanged` only when additionally no image change is
recorded — the record carries no image URL, or storage returned no path —
since the sync wrapper re-adds an `image` entry on every run that stores
one; this holds for both sources. -/
theorem second_identical_sync_empty_changeset :
    (∀ (reg : Registration) (d : FIPSTrademarkData) (t₁ t₂ : Int),
      gsTruthy d.goods_services = false →
      (update_registration_from_fips (update_registration_from_fips reg d t₁).1
          d t₂).2 = [] ∧
      (update_registration_from_fips (update_registration_from_fips reg d t₁).1
          d t₂).1.last_sync_at = some t₂ ∧
      (update_registration_from_fips (update_registration_from_fips reg d t₁).1
          d t₂).1.last_sync_source = some "fips") ∧
    (∀ (reg : Registration) (d : WIPOTrademarkData) (t₁ t₂ : Int),
      (update_registration_from_wipo (update_registration_from_wipo reg d t₁).1
          d t₂).2 = [] ∧
      (update_registration_from_wipo (update_registration_from_wipo reg d t₁).1
          d t₂).1.last_sync_at = some t₂ ∧
      (update_registration_from_wipo (update_registration_from_wipo reg d t₁).1
          d t₂).1.last_sync_source = some "wipo") ∧
    (∀ (reg : Registration) (d : FIPSTrademarkData) (img : Option String) (t₁ t₂ : Int),
      pyTruthy reg.registration_number = true → d.error = none →
      gsTruthy d.goods_services = false →
      (pyTruthy d.image_url = false ∨ img = none) →
      (sync_fips_registration (sync_fips_registration reg (FetchOutcome.data d) img t₁).2.2
          (FetchOutcome.data d) img t₂).1.status = "unchanged") ∧
    (∀ (reg : Registration) (d : WIPOTrademarkData) (img : Option String) (t₁ t₂ : Int),
      pyTruthy (pyOrStr reg.madrid_registration_number reg.registration_number) = true →
      d.error = none →
      (pyTruthy d.image_url = false ∨ img = none) →
      (sync_wipo_registration (sync_wipo_registration reg (FetchOutcome.data d) img t₁).2.2
          (FetchOutcome.data d) img t₂).1.status = "unchanged") := by
  refine ⟨?_, ?_, ?_, ?_⟩
  · intro reg d t₁ t₂ hgs
    rw [update_fips_second reg d t₁ t₂ hgs]
    exact ⟨rfl, rfl, rfl⟩
  · intro reg d t₁ t₂
    rw [update_wipo_second reg d t₁ t₂]
    exact ⟨rfl, rfl, rfl⟩
  · intro reg d img t₁ t₂ h he hgs himg
    rw [sync_fips_success_reg reg d img t₁ h he]
    have hr1 : pyTruthy (update_registration_from_fips reg d t₁).1.registration_number =
        true := by
      rw [update_fips_regnum]
      exact h
    rw [sync_fips_success_status _ d img t₂ hr1 he himg,
      update_fips_second reg d t₁ t₂ hgs]
    simp
  · intro reg d img t₁ t₂ h he himg
    rw [sync_wipo_success_reg reg d img t₁ h he]
    have hr1 : pyTruthy (pyOrStr
        (update_registration_from_wipo reg d t₁).1.madrid_registration_number
        (update_registration_from_wipo reg d t₁).1.registration_number) = true := by
      rw [update_wipo_madrid, update_wipo_regnum]
      exact h
    rw [sync_wipo_success_status _ d img t₂ hr1 he himg,
      update_wipo_second reg d t₁ t₂]
    simp

def regW3 : Registration :=
  ⟨5, some "777", some "888", some 738100, some 739100, false, true,
   RegistrationStatus.PENDING, RenewalStatus.ACTIVE, none, none⟩

def wipoW3 : WIPOTrademarkData :=
  ⟨"888", some "registered", some 738100, some 739200, none, none⟩

def fipsW3 : FIPSTrademarkData :=
  ⟨"777", some "registered", some 738100, some 739200, none, none, none⟩

theorem second_identical_sync_empty_changeset_witness :
    (update_registration_from_wipo (update_registration_from_wipo regW3 wipoW3 10).1
        wipoW3 20).2 = [] ∧
    (update_registration_from_wipo (update_registration_from_wipo regW3 wipoW3 10).1
        wipoW3 20).1.last_sync_at = some 20 ∧
    (sync_fips_registration (sync_fips_registration regW3 (FetchOutcome.data fipsW3)
        none 10).2.2 (FetchOutcome.data fipsW3) none 20).1.status = "unchanged" ∧
    (sync_wipo_registration (sync_wipo_registration regW3 (FetchOutcome.data wipoW3)
        none 10).2.2 (FetchOutcome.data wipoW3) none 20).1.status = "unchanged" :=
  ⟨(second_identical_sync_empty_changeset.2.1 regW3 wipoW3 10 20).1,
   (second_identical_sync_empty_changeset.2.1 regW3 wipoW3 10 20).2.1,
   second_identical_sync_empty_changeset.2.2.1 regW3 fipsW3 none 10 20
     (by decide) rfl rfl (Or.inl rfl),
   second_identical_sync_empty_changeset.2.2.2 regW3 wipoW3 none 10 20
     (by decide) rfl (Or.inl rfl)⟩

/-- C5 counterexample: a sync attempt that is `skipped` for lack of a
lookup key returns before `_log_sync_result` is ever called, so it
produces zero SyncLog rows, not one. -/
def regC5 : Registration :=
  ⟨2, none, none, none, none, true, false, RegistrationStatus.PENDING,
   RenewalStatus.ACTIVE, none, none⟩

theorem skipped_sync_writes_no_log :
    (sync_fips_registration regC5 (FetchOutcome.data (fipsEmptyResult "" none))
        none 0).1.status = "skipped" ∧
    (sync_fips_registration regC5 (FetchOutcome.data (fipsEmptyResult "" none))
        none 0).2.1 = [] := by
  decide

/-- C5 (amended): a sync attempt with a usable lookup key produces exactly
one SyncLog row — `failed` when the outcome is `error`, `success` when it
is `updated` or `unchanged` — while a `skipped` attempt (no lookup key)
produces none, for both sources. -/
theorem ite_updated_or_unchanged (c : List ChangeEntry) :
    (if c ≠ [] then "updated" else "unchanged") = "updated" ∨
    (if c ≠ [] then "updated" else "unchanged") = "unchanged" := by
  split
  · exact Or.inl rfl
  · exact Or.inr rfl

theorem sync_log_exactly_one_unless_skipped :
    (∀ (reg : Registration) (fetch : FetchOutcome FIPSTrademarkData)
        (img : Option String) (now : Int),
      (pyTruthy reg.registration_number = false →
        (sync_fips_registration reg fetch img now).1.status = "skipped" ∧
        (sync_fips_registration reg fetch img now).2.1 = []) ∧
      (pyTruthy reg.registration_number = true →
        ∃ l, (sync_fips_registration reg fetch img now).2.1 = [l] ∧
          (((sync_fips_registration reg fetch img now).1.status = "error" ∧
              l.status = "failed") ∨
           (((sync_fips_registration reg fetch img now).1.status = "updated" ∨
              (sync_fips_registration reg fetch img now).1.status = "unchanged") ∧
              l.status = "success")))) ∧
    (∀ (reg : Registration) (fetch : FetchOutcome WIPOTrademarkData)
        (img : Option String) (now : Int),
      (pyTruthy (pyOrStr reg.madrid_registration_number reg.registration_number) = false →
        (sync_wipo_registration reg fetch img now).1.status = "skipped" ∧
        (sync_wipo_registration reg fetch img now).2.1 = []) ∧
      (pyTruthy (pyOrStr reg.madrid_registration_number reg.registration_number) = true →
        ∃ l, (sync_wipo_registration reg fetch img now).2.1 = [l] ∧
          (((sync_wipo_registration reg fetch img now).1.status = "error" ∧
              l.status = "failed") ∨
           (((sync_wipo_registration reg fetch img now).1.status = "updated" ∨
              (sync_wipo_registration reg fetch img now).1.status = "unchanged") ∧
              l.status = "success")))) := by
  constructor
  · intro reg fetch img now
    constructor
    · intro hf
      unfold sync_fips_registration
      rw [if_pos (by simp [hf])]
      exact ⟨rfl, rfl⟩
    · intro ht
      unfold sync_fips_registration
      rw [if_neg (by simp [ht])]
      rcases fetch with d | msg
      · rcases hd : d.error with _ | e
        · simp only [hd]
          refine ⟨_, rfl, ?_⟩
          exact Or.inr ⟨ite_updated_or_unchanged _, rfl⟩
        · simp only [hd]
          refine ⟨_, rfl, ?_⟩
          left
          constructor <;> first | rfl | trivial
      · refine ⟨_, rfl, ?_⟩
        left
        constructor <;> rfl
  · intro reg fetch img now
    constructor
    · intro hf
      unfold sync_wipo_registration
      rw [if_pos (by simp [hf])]
      exact ⟨rfl, rfl⟩
    · intro ht
      unfold sync_wipo_registration
      rw [if_neg (by simp [ht])]
      rcases fetch with d | msg
      · rcases hd : d.error with _ | e
        · simp only [hd]
          refine ⟨_, rfl, ?_⟩
          exact Or.inr ⟨ite_updated_or_unchanged _, rfl⟩
        · simp only [hd]
          refine ⟨_, rfl, ?_⟩
          left
          constructor <;> first | rfl | trivial
      · refine ⟨_, rfl, ?_⟩
        left
        constructor <;> rfl

def regW5 : Registration :=
  ⟨11, some "432", none, none, some 739000, true, false, RegistrationStatus.PENDING,
   RenewalStatus.ACTIVE, none, none⟩

def fipsW5 : FIPSTrademarkData :=
  ⟨"432", some "registered", none, some 739400, none, none, none⟩

theorem sync_log_exactly_one_witness :
    (sync_fips_registration regW5 (FetchOutcome.data fipsW5) none 0).2.1.length = 1 := by
  obtain ⟨l, hl, _⟩ :=
    (sync_log_exactly_one_unless_skipped.1 regW5 (FetchOutcome.data fipsW5) none 0).2
      (by decide)
  rw [hl]
  rfl

/-! ## ChangeSet field membership -/

def isExpirationEntry : ChangeEntry → Bool
  | ChangeEntry.expiration _ _ => true
  | _ => false

def isStatusEntry : ChangeEntry → Bool
  | ChangeEntry.status _ _ => true
  | _ => false

def isRegDateEntry : ChangeEntry → Bool
  | ChangeEntry.regDate _ _ => true
  | _ => false

/-- The ChangeSet dict has an `expiration_date` key. -/
def hasExpirationEntry (c : List ChangeEntry) : Bool := c.any isExpirationEntry

/-- The ChangeSet dict has a `status` key. -/
def hasStatusEntry (c : List ChangeEntry) : Bool := c.any isStatusEntry

/-- The ChangeSet dict has a `registration_date` key. -/
def hasRegDateEntry (c : List ChangeEntry) : Bool := c.any isRegDateEntry

theorem applyExpiration_changes (reg : Registration) (d : Option PyDate) :
    (applyExpiration reg d).2 = [] ∨
    ∃ e, d = some e ∧ some e ≠ reg.expiration_date ∧
      (applyExpiration reg d).2 = [ChangeEntry.expiration reg.expiration_date e] := by
  rcases d with _ | e
  · exact Or.inl rfl
  · simp only [applyExpiration]
    by_cases h : some e ≠ reg.expiration_date
    · rw [if_pos h]
      exact Or.inr ⟨e, rfl, h, rfl⟩
    · rw [if_neg h]
      exact Or.inl rfl

theorem applyExpiration_changes_of (reg : Registration) (e : PyDate)
    (h : some e ≠ reg.expiration_date) :
    (applyExpiration reg (some e)).2 = [ChangeEntry.expiration reg.expiration_date e] := by
  simp only [applyExpiration]
  rw [if_pos h]

theorem applyRegDate_changes (reg : Registration) (d : Option PyDate) :
    (applyRegDate reg d).2 = [] ∨
    ∃ e, d = some e ∧ some e ≠ reg.registration_date ∧
      (applyRegDate reg d).2 = [ChangeEntry.regDate reg.registration_date e] := by
  rcases d with _ | e
  · exact Or.inl rfl
  · simp only [applyRegDate]
    by_cases h : some e ≠ reg.registration_date
    · rw [if_pos h]
      exact Or.inr ⟨e, rfl, h, rfl⟩
    · rw [if_neg h]
      exact Or.inl rfl

theorem applyRegDate_changes_of (reg : Registration) (e : PyDate)
    (h : some e ≠ reg.registration_date) :
    (applyRegDate reg (some e)).2 = [ChangeEntry.regDate reg.registration_date e] := by
  simp only [applyRegDate]
  rw [if_pos h]

theorem applyStatus_changes (m : String → Option String) (reg : Registration)
    (s : Option String) :
    (applyStatus m reg s).2 = [] ∨
    ∃ str ns, s = some str ∧ str ≠ "" ∧ m str = some ns ∧ ns ≠ "" ∧ ns ≠ reg.status ∧
      (applyStatus m reg s).2 = [ChangeEntry.status reg.status ns] := by
  rcases s with _ | str
  · exact Or.inl rfl
  · simp only [applyStatus]
    by_cases hstr : str = ""
    · rw [if_pos hstr]
      exact Or.inl rfl
    · rw [if_neg hstr]
      rcases hm : m str with _ | ns
      · exact Or.inl rfl
      · dsimp only
        by_cases hc : ns ≠ "" ∧ ns ≠ reg.status
        · rw [if_pos hc]
          exact Or.inr ⟨str, ns, rfl, hstr, hm, hc.1, hc.2, rfl⟩
        · rw [if_neg hc]
          exact Or.inl rfl

theorem applyStatus_changes_of (m : String → Option String) (reg : Registration)
    (str ns : String) (h1 : str ≠ "") (h2 : m str = some ns) (h3 : ns ≠ "")
    (h4 : ns ≠ reg.status) :
    (applyStatus m reg (some str)).2 = [ChangeEntry.status reg.status ns] := by
  simp only [applyStatus]
  rw [if_neg h1, h2]
  dsimp only
  rw [if_pos ⟨h3, h4⟩]

theorem hasExp_applyExpiration_iff (reg : Registration) (d : Option PyDate) :
    hasExpirationEntry (applyExpiration reg d).2 = true ↔
      ∃ e, d = some e ∧ some e ≠ reg.expiration_date := by
  rcases d with _ | e
  · simp [applyExpiration, hasExpirationEntry]
  · simp only [applyExpiration]
    by_cases h : some e ≠ reg.expiration_date
    · rw [if_pos h]
      simp [hasExpirationEntry, isExpirationEntry, h]
    · rw [if_neg h]
      simp only [not_not] at h
      simp [hasExpirationEntry, h]
      exact fun x hx => hx.symm

theorem hasRegDate_applyRegDate_iff (reg : Registration) (d : Option PyDate) :
    hasRegDateEntry (applyRegDate reg d).2 = true ↔
      ∃ e, d = some e ∧ some e ≠ reg.registration_date := by
  rcases d with _ | e
  · simp [applyRegDate, hasRegDateEntry]
  · simp only [applyRegDate]
    by_cases h : some e ≠ reg.registration_date
    · rw [if_pos h]
      simp [hasRegDateEntry, isRegDateEntry, h]
    · rw [if_neg h]
      simp only [not_not] at h
      simp [hasRegDateEntry, h]
      exact fun x hx => hx.symm

theorem hasStatus_applyStatus_iff (m : String → Option String) (reg : Registration)
    (s : Option String) :
    hasStatusEntry (applyStatus m reg s).2 = true ↔
      ∃ str ns, s = some str ∧ str ≠ "" ∧ m str = some ns ∧ ns ≠ "" ∧ ns ≠ reg.status := by
  constructor
  · intro h
    rcases applyStatus_changes m reg s with hc | ⟨str, ns, hs, hstr, hm, hns, hneq, hc⟩
    · rw [hc] at h
      cases h
    · exact ⟨str, ns, hs, hstr, hm, hns, hneq⟩
  · rintro ⟨str, ns, hs, hstr, hm, hns, hneq⟩
    rw [hs, applyStatus_changes_of m reg str ns hstr hm hns hneq]
    rfl

theorem hasExp_applyStatus_false (m : String → Option String) (reg : Registration)
    (s : Option String) : hasExpirationEntry (applyStatus m reg s).2 = false := by
  rcases applyStatus_changes m reg s with hc | ⟨_, _, _, _, _, _, _, hc⟩ <;> rw [hc] <;> rfl

theorem hasExp_applyRegDate_false (reg : Registration) (d : Option PyDate) :
    hasExpirationEntry (applyRegDate reg d).2 = false := by
  rcases applyRegDate_changes reg d with hc | ⟨_, _, _, hc⟩ <;> rw [hc] <;> rfl

theorem hasStatus_applyExpiration_false (reg : Registration) (d : Option PyDate) :
    hasStatusEntry (applyExpiration reg d).2 = false := by
  rcases applyExpiration_changes reg d with hc | ⟨_, _, _, hc⟩ <;> rw [hc] <;> rfl

theorem hasStatus_applyRegDate_false (reg : Registration) (d : Option PyDate) :
    hasStatusEntry (applyRegDate reg d).2 = false := by
  rcases applyRegDate_changes reg d with hc | ⟨_, _, _, hc⟩ <;> rw [hc] <;> rfl

theorem hasRegDate_applyExpiration_false (reg : Registration) (d : Option PyDate) :
    hasRegDateEntry (applyExpiration reg d).2 = false := by
  rcases applyExpiration_changes reg d with hc | ⟨_, _, _, hc⟩ <;> rw [hc] <;> rfl

theorem hasRegDate_applyStatus_false (m : String → Option String) (reg : Registration)
    (s : Option String) : hasRegDateEntry (applyStatus m reg s).2 = false := by
  rcases applyStatus_changes m reg s with hc | ⟨_, _, _, _, _, _, _, hc⟩ <;> rw [hc] <;> rfl

theorem gsChanges_no_field_entries (g : Option (List (Nat × String))) :
    hasExpirationEntry (if gsTruthy g then
        [ChangeEntry.goodsServices ((g.getD []).map Prod.fst)] else []) = false ∧
    hasStatusEntry (if gsTruthy g then
        [ChangeEntry.goodsServices ((g.getD []).map Prod.fst)] else []) = false ∧
    hasRegDateEntry (if gsTruthy g then
        [ChangeEntry.goodsServices ((g.getD []).map Prod.fst)] else []) = false := by
  by_cases hg : gsTruthy g = true
  · rw [if_pos hg]
    exact ⟨rfl, rfl, rfl⟩
  · rw [if_neg (by simp [hg])]
    exact ⟨rfl, rfl, rfl⟩

theorem hasExp_append (a b : List ChangeEntry) :
    hasExpirationEntry (a ++ b) = (hasExpirationEntry a || hasExpirationEntry b) :=
  List.any_append

theorem hasStatus_append (a b : List ChangeEntry) :
    hasStatusEntry (a ++ b) = (hasStatusEntry a || hasStatusEntry b) :=
  List.any_append

theorem hasRegDate_append (a b : List ChangeEntry) :
    hasRegDateEntry (a ++ b) = (hasRegDateEntry a || hasRegDateEntry b) :=
  List.any_append

theorem update_fips_hasExp_iff (reg : Registration) (d : FIPSTrademarkData) (now : Int) :
    hasExpirationEntry (update_registration_from_fips reg d now).2 = true ↔
      ∃ e, d.expiration_date = some e ∧ some e ≠ reg.expiration_date := by
  simp only [update_registration_from_fips, hasExp_append, hasExp_applyStatus_false,
    hasExp_applyRegDate_false, (gsChanges_no_field_entries d.goods_services).1,
    Bool.or_false, Bool.false_or]
  exact hasExp_applyExpiration_iff reg d.expiration_date

theorem update_fips_hasRegDate_iff (reg : Registration) (d : FIPSTrademarkData) (now : Int) :
    hasRegDateEntry (update_registration_from_fips reg d now).2 = true ↔
      ∃ e, d.registration_date = some e ∧ some e ≠ reg.registration_date := by
  simp only [update_registration_from_fips, hasRegDate_append,
    hasRegDate_applyExpiration_false, hasRegDate_applyStatus_false,
    (gsChanges_no_field_entries d.goods_services).2.2, Bool.or_false, Bool.false_or]
  rw [hasRegDate_applyRegDate_iff]
  simp [applyStatus_regdate, applyExpiration_regdate]

theorem update_fips_hasStatus_iff (reg : Registration) (d : FIPSTrademarkData) (now : Int) :
    hasStatusEntry (update_registration_from_fips reg d now).2 = true ↔
      ∃ s ns, d.status = some s ∧ s ≠ "" ∧ map_fips_status s = some ns ∧
        ns ≠ reg.status := by
  have base := hasStatus_applyStatus_iff map_fips_status
    (applyExpiration reg d.expiration_date).1 d.status
  rw [applyExpiration_status] at base
  simp only [update_registration_from_fips, hasStatus_append,
    hasStatus_applyExpiration_false, hasStatus_applyRegDate_false,
    (gsChanges_no_field_entries d.goods_services).2.1, Bool.or_false, Bool.false_or]
  rw [base]
  constructor
  · rintro ⟨s, ns, hs, hstr, hm, _, hneq⟩
    exact ⟨s, ns, hs, hstr, hm, hneq⟩
  · rintro ⟨s, ns, hs, hstr, hm, hneq⟩
    refine ⟨s, ns, hs, hstr, hm, ?_, hneq⟩
    rcases map_fips_status_mem_range s ns hm with h | h | h | h <;> subst h <;> decide

theorem update_wipo_hasExp_iff (reg : Registration) (d : WIPOTrademarkData) (now : Int) :
    hasExpirationEntry (update_registration_from_wipo reg d now).2 = true ↔
      ∃ e, d.expiration_date = some e ∧ some e ≠ reg.expiration_date := by
  simp only [update_registration_from_wipo, hasExp_append, hasExp_applyStatus_false,
    Bool.or_false]
  exact hasExp_applyExpiration_iff reg d.expiration_date

theorem update_wipo_hasStatus_iff (reg : Registration) (d : WIPOTrademarkData) (now : Int) :
    hasStatusEntry (update_registration_from_wipo reg d now).2 = true ↔
      ∃ s ns, d.status = some s ∧ s ≠ "" ∧ map_wipo_status s = some ns ∧
        ns ≠ reg.status := by
  have base := hasStatus_applyStatus_iff map_wipo_status
    (applyExpiration reg d.expiration_date).1 d.status
  rw [applyExpiration_status] at base
  simp only [update_registration_from_wipo, hasStatus_append,
    hasStatus_applyExpiration_false, Bool.false_or]
  rw [base]
  constructor
  · rintro ⟨s, ns, hs, hstr, hm, _, hneq⟩
    exact ⟨s, ns, hs, hstr, hm, hneq⟩
  · rintro ⟨s, ns, hs, hstr, hm, hneq⟩
    refine ⟨s, ns, hs, hstr, hm, ?_, hneq⟩
    rcases map_wipo_status_mem_range s ns hm with h | h | h | h <;> subst h <;> decide

theorem update_wipo_hasRegDate_false (reg : Registration) (d : WIPOTrademarkData)
    (now : Int) :
    hasRegDateEntry (update_registration_from_wipo reg d now).2 = false := by
  simp only [update_registration_from_wipo, hasRegDate_append,
    hasRegDate_applyExpiration_false, hasRegDate_applyStatus_false, Bool.or_false]

theorem update_wipo_regdate_unchanged (reg : Registration) (d : WIPOTrademarkData)
    (now : Int) :
    (update_registration_from_wipo reg d now).1.registration_date =
      reg.registration_date := by
  simp only [update_registration_from_wipo]
  simp [applyStatus_regdate, applyExpiration_regdate]

theorem applyStatus_applied (m : String → Option String) (reg : Registration)
    (str ns : String) (h1 : str ≠ "") (h2 : m str = some ns) (h3 : ns ≠ "")
    (h4 : ns ≠ reg.status) :
    (applyStatus m reg (some str)).1.status = ns := by
  simp only [applyStatus]
  rw [if_neg h1, h2]
  dsimp only
  rw [if_pos ⟨h3, h4⟩]

theorem update_fips_exp_applied (reg : Registration) (d : FIPSTrademarkData) (now : Int)
    (e : PyDate) (h : d.expiration_date = some e) :
    (update_registration_from_fips reg d now).1.expiration_date = some e := by
  simp only [update_registration_from_fips]
  simp [applyRegDate_expiration, applyStatus_expiration, h, applyExpiration_exp_some]

theorem update_fips_regdate_applied (reg : Registration) (d : FIPSTrademarkData)
    (now : Int) (e : PyDate) (h : d.registration_date = some e) :
    (update_registration_from_fips reg d now).1.registration_date = some e := by
  simp only [update_registration_from_fips]
  simp [h, applyRegDate_rd_some]

theorem update_fips_status_applied (reg : Registration) (d : FIPSTrademarkData)
    (now : Int) (s ns : String) (hs : d.status = some s) (hstr : s ≠ "")
    (hm : map_fips_status s = some ns) (hneq : ns ≠ reg.status) :
    (update_registration_from_fips reg d now).1.status = ns := by
  have hns : ns ≠ "" := by
    rcases map_fips_status_mem_range s ns hm with h | h | h | h <;> subst h <;> decide
  have happ : (applyStatus map_fips_status (applyExpiration reg d.expiration_date).1
      d.status).1.status = ns := by
    rw [hs]
    exact applyStatus_applied map_fips_status _ s ns hstr hm hns
      (by rw [applyExpiration_status]; exact hneq)
  simp only [update_registration_from_fips]
  simp [applyRegDate_status, happ]

theorem update_wipo_exp_applied (reg : Registration) (d : WIPOTrademarkData) (now : Int)
    (e : PyDate) (h : d.expiration_date = some e) :
    (update_registration_from_wipo reg d now).1.expiration_date = some e := by
  simp only [update_registration_from_wipo]
  simp [applyStatus_expiration, h, applyExpiration_exp_some]

theorem update_wipo_status_applied (reg : Registration) (d : WIPOTrademarkData)
    (now : Int) (s ns : String) (hs : d.status = some s) (hstr : s ≠ "")
    (hm : map_wipo_status s = some ns) (hneq : ns ≠ reg.status) :
    (update_registration_from_wipo reg d now).1.status = ns := by
  have hns : ns ≠ "" := by
    rcases map_wipo_status_mem_range s ns hm with h | h | h | h <;> subst h <;> decide
  have happ : (applyStatus map_wipo_status (applyExpiration reg d.expiration_date).1
      d.status).1.status = ns := by
    rw [hs]
    exact applyStatus_applied map_wipo_status _ s ns hstr hm hns
      (by rw [applyExpiration_status]; exact hneq)
  simp only [update_registration_from_wipo]
  simp [happ]

/-- C7 counterexample: the international reconciliation never touches
`registration_date` — a WIPO record whose (non-null) registration date
differs from the stored one yields no ChangeSet entry and no mutation. -/
def regC7 : Registration :=
  ⟨3, some "111", some "222", some 700000, some 739000, false, true,
   RegistrationStatus.REGISTERED, RenewalStatus.ACTIVE, none, none⟩

def wipoC7 : WIPOTrademarkData :=
  ⟨"222", some "registered", some 700500, some 739000, none, none⟩

theorem wipo_regdate_not_reconciled :
    wipoC7.registration_date = some 700500 ∧
    regC7.registration_date = some 700000 ∧
    (update_registration_from_wipo regC7 wipoC7 0).2 = [] ∧
    (update_registration_from_wipo regC7 wipoC7 0).1.registration_date = some 700000 := by
  decide

def d20250315 : PyDate := (Date.mk 2025 3 15).toOrd

def d20260315 : PyDate := (Date.mk 2026 3 15).toOrd

def regRT : Registration :=
  ⟨6, some "900", some "901", none, some d20250315, true, true,
   RegistrationStatus.PENDING, RenewalStatus.ACTIVE, none, none⟩

def fipsRT : FIPSTrademarkData :=
  ⟨"900", some "registered", none, some d20260315, none, none, none⟩

def wipoRT : WIPOTrademarkData :=
  ⟨"901", some "registered", none, some d20260315, none, none⟩

/-- C7 (amended): for the national source, each of expiration date, status
and registration date enters the ChangeSet exactly when the fetched value
is non-null (for status: non-empty and mapping through the lookup table)
and differs from the stored value, and the new value is then applied; for
the international source the same holds for expiration date and status
only — `registration_date` is never reconciled there.  The 2026-03-15 /
`registered` against 2025-03-15 / `pending` round-trip yields exactly the
two expected entries on both sources. -/
theorem changeset_field_characterization :
    (∀ reg (d : FIPSTrademarkData) now,
      hasExpirationEntry (update_registration_from_fips reg d now).2 = true ↔
        ∃ e, d.expiration_date = some e ∧ some e ≠ reg.expiration_date) ∧
    (∀ reg (d : FIPSTrademarkData) now,
      hasStatusEntry (update_registration_from_fips reg d now).2 = true ↔
        ∃ s ns, d.status = some s ∧ s ≠ "" ∧ map_fips_status s = some ns ∧
          ns ≠ reg.status) ∧
    (∀ reg (d : FIPSTrademarkData) now,
      hasRegDateEntry (update_registration_from_fips reg d now).2 = true ↔
        ∃ e, d.registration_date = some e ∧ some e ≠ reg.registration_date) ∧
    (∀ reg (d : WIPOTrademarkData) now,
      hasExpirationEntry (update_registration_from_wipo reg d now).2 = true ↔
        ∃ e, d.expiration_date = some e ∧ some e ≠ reg.expiration_date) ∧
    (∀ reg (d : WIPOTrademarkData) now,
      hasStatusEntry (update_registration_from_wipo reg d now).2 = true ↔
        ∃ s ns, d.status = some s ∧ s ≠ "" ∧ map_wipo_status s = some ns ∧
          ns ≠ reg.status) ∧
    (∀ reg (d : WIPOTrademarkData) now,
      hasRegDateEntry (update_registration_from_wipo reg d now).2 = false) ∧
    (∀ reg (d : WIPOTrademarkData) now,
      (update_registration_from_wipo reg d now).1.registration_date =
        reg.registration_date) ∧
    (∀ reg (d : FIPSTrademarkData) now e, d.expiration_date = some e →
      (update_registration_from_fips reg d now).1.expiration_date = some e) ∧
    (∀ reg (d : FIPSTrademarkData) now e, d.registration_date = some e →
      (update_registration_from_fips reg d now).1.registration_date = some e) ∧
    (∀ reg (d : FIPSTrademarkData) now s ns, d.status = some s → s ≠ "" →
      map_fips_status s = some ns → ns ≠ reg.status →
      (update_registration_from_fips reg d now).1.status = ns) ∧
    (∀ reg (d : WIPOTrademarkData) now e, d.expiration_date = some e →
      (update_registration_from_wipo reg d now).1.expiration_date = some e) ∧
    (∀ reg (d : WIPOTrademarkData) now s ns, d.status = some s → s ≠ "" →
      map_wipo_status s = some ns → ns ≠ reg.status →
      (update_registration_from_wipo reg d now).1.status = ns) ∧
    (update_registration_from_fips regRT fipsRT 0).2 =
      [ChangeEntry.expiration (some d20250315) d20260315,
       ChangeEntry.status RegistrationStatus.PENDING RegistrationStatus.REGISTERED] ∧
    (update_registration_from_wipo regRT wipoRT 0).2 =
      [ChangeEntry.expiration (some d20250315) d20260315,
       ChangeEntry.status RegistrationStatus.PENDING RegistrationStatus.REGISTERED] :=
  ⟨update_fips_hasExp_iff, update_fips_hasStatus_iff, update_fips_hasRegDate_iff,
   update_wipo_hasExp_iff, update_wipo_hasStatus_iff, update_wipo_hasRegDate_false,
   update_wipo_regdate_unchanged, update_fips_exp_applied, update_fips_regdate_applied,
   update_fips_status_applied, update_wipo_exp_applied, update_wipo_status_applied,
   by decide, by decide⟩

theorem changeset_field_characterization_witness :
    hasExpirationEntry (update_registration_from_fips regRT fipsRT 0).2 = true ∧
    hasRegDateEntry (update_registration_from_wipo regC7 wipoC7 0).2 = false :=
  ⟨(changeset_field_characterization.1 regRT fipsRT 0).mpr ⟨d20260315, rfl, by decide⟩,
   changeset_field_characterization.2.2.2.2.2.1 regC7 wipoC7 0⟩

theorem optExpLe_total (a b : Option Int) : (optExpLe a b || optExpLe b a) = true := by
  rcases a with _ | x <;> rcases b with _ | y <;> simp [optExpLe] <;> omega

theorem optSyncLe_total (a b : Option Int) : (optSyncLe a b || optSyncLe b a) = true := by
  rcases a with _ | x <;> rcases b with _ | y <;> simp [optSyncLe] <;> omega

theorem optSyncLe_trans (a b c : Option Int) (h1 : optSyncLe a b = true)
    (h2 : optSyncLe b c = true) : optSyncLe a c = true := by
  rcases a with _ | x <;> rcases b with _ | y <;> rcases c with _ | z <;>
    simp_all [optSyncLe] <;> omega

theorem optExpLe_strict_trans (a b c : Option Int) (h1 : optExpLe a b = true)
    (hne1 : a ≠ b) (h2 : optExpLe b c = true) (hne2 : b ≠ c) :
    a ≠ c ∧ optExpLe a c = true := by
  rcases a with _ | x <;> rcases b with _ | y <;> rcases c with _ | z <;>
    simp_all [optExpLe] <;> omega

theorem keyLe_trans (e1 s1 e2 s2 e3 s3 : Option Int) (h1 : keyLe e1 s1 e2 s2 = true)
    (h2 : keyLe e2 s2 e3 s3 = true) : keyLe e1 s1 e3 s3 = true := by
  unfold keyLe at h1 h2 ⊢
  by_cases h12 : e1 = e2 <;> by_cases h23 : e2 = e3
  · subst h12
    subst h23
    rw [if_pos rfl] at h1 h2 ⊢
    exact optSyncLe_trans _ _ _ h1 h2
  · subst h12
    rw [if_neg h23] at h2 ⊢
    exact h2
  · subst h23
    rw [if_neg h12] at h1 ⊢
    exact h1
  · rw [if_neg h12] at h1
    rw [if_neg h23] at h2
    obtain ⟨hne, hle⟩ := optExpLe_strict_trans e1 e2 e3 h1 h12 h2 h23
    rw [if_neg hne]
    exact hle

theorem keyLe_total (e1 s1 e2 s2 : Option Int) :
    (keyLe e1 s1 e2 s2 || keyLe e2 s2 e1 s1) = true := by
  unfold keyLe
  by_cases h : e1 = e2
  · rw [if_pos h, if_pos h.symm]
    exact optSyncLe_total s1 s2
  · rw [if_neg h, if_neg (fun hh => h hh.symm)]
    exact optExpLe_total e1 e2

theorem sync_le_trans (a b c : Registration) (h1 : sync_le a b = true)
    (h2 : sync_le b c = true) : sync_le a c = true :=
  keyLe_trans _ _ _ _ _ _ h1 h2

theorem sync_le_total (a b : Registration) : (sync_le a b || sync_le b a) = true :=
  keyLe_total _ _ _ _

/-- C8: candidate selection returns only registrations flagged for the
requested source with `renewal_status = active`, sorted by the lexicographic
key "soonest expiration first, nulls last; then oldest last-sync first,
never-synced first", which the final equivalence spells out. -/
theorem sync_candidate_selection (regs : List Registration) (limit : Nat) :
    (∀ r ∈ get_registrations_for_sync regs "fips" limit true,
      r ∈ regs ∧ r.is_national = true ∧ r.renewal_status = RenewalStatus.ACTIVE) ∧
    List.Pairwise (fun a b => sync_le a b = true)
      (get_registrations_for_sync regs "fips" limit true) ∧
    (∀ r ∈ get_registrations_for_sync regs "wipo" limit true,
      r ∈ regs ∧ r.is_international = true ∧ r.renewal_status = RenewalStatus.ACTIVE) ∧
    List.Pairwise (fun a b => sync_le a b = true)
      (get_registrations_for_sync regs "wipo" limit true) ∧
    (∀ a b : Registration, sync_le a b = true ↔
      ((∃ x y, a.expiration_date = some x ∧ b.expiration_date = some y ∧ x < y) ∨
       (∃ x, a.expiration_date = some x ∧ b.expiration_date = none) ∨
       (a.expiration_date = b.expiration_date ∧
        (a.last_sync_at = none ∨
         ∃ x y, a.last_sync_at = some x ∧ b.last_sync_at = some y ∧ x ≤ y)))) := by
  have hfips : get_registrations_for_sync regs "fips" limit true =
      ((regs.filter fun r => r.is_national &&
        decide (r.renewal_status = RenewalStatus.ACTIVE)).mergeSort sync_le).take limit := by
    simp [get_registrations_for_sync]
  have hwipo : get_registrations_for_sync regs "wipo" limit true =
      ((regs.filter fun r => r.is_international &&
        decide (r.renewal_status = RenewalStatus.ACTIVE)).mergeSort sync_le).take limit := by
    simp [get_registrations_for_sync]
  refine ⟨?_, ?_, ?_, ?_, ?_⟩
  · intro r hr
    rw [hfips] at hr
    have hr' := List.take_subset _ _ hr
    rw [List.mem_mergeSort] at hr'
    rw [List.mem_filter] at hr'
    refine ⟨hr'.1, ?_, ?_⟩
    · exact (Bool.and_eq_true _ _ |>.mp hr'.2).1
    · simpa using (Bool.and_eq_true _ _ |>.mp hr'.2).2
  · rw [hfips]
    exact List.Pairwise.sublist (List.take_sublist _ _)
      (List.sorted_mergeSort sync_le_trans sync_le_total _)
  · intro r hr
    rw [hwipo] at hr
    have hr' := List.take_subset _ _ hr
    rw [List.mem_mergeSort] at hr'
    rw [List.mem_filter] at hr'
    refine ⟨hr'.1, ?_, ?_⟩
    · exact (Bool.and_eq_true _ _ |>.mp hr'.2).1
    · simpa using (Bool.and_eq_true _ _ |>.mp hr'.2).2
  · rw [hwipo]
    exact List.Pairwise.sublist (List.take_sublist _ _)
      (List.sorted_mergeSort sync_le_trans sync_le_total _)
  · intro a b
    unfold sync_le keyLe
    by_cases h : a.expiration_date = b.expiration_date
    · rw [if_pos h]
      constructor
      · intro hle
        right; right
        refine ⟨h, ?_⟩
        rcases ha : a.last_sync_at with _ | x
        · exact Or.inl rfl
        · rcases hb : b.last_sync_at with _ | y
          · rw [ha, hb] at hle
            simp [optSyncLe] at hle
          · rw [ha, hb] at hle
            exact Or.inr ⟨x, y, rfl, rfl, by simpa [optSyncLe] using hle⟩
      · rintro (⟨x, y, hax, hby, hxy⟩ | ⟨x, hax, hbn⟩ | ⟨_, hsync⟩)
        · exfalso
          rw [hax, hby] at h
          injection h with h'
          exact absurd h' (ne_of_lt hxy)
        · exfalso
          rw [hax, hbn] at h
          cases h
        · rcases hsync with hnone | ⟨x, y, hax, hby, hxy⟩
          · simp [optSyncLe, hnone]
          · rw [hax, hby]
            simpa [optSyncLe] using hxy
    · rw [if_neg h]
      rcases ha : a.expiration_date with _ | x <;> rcases hb : b.expiration_date with _ | y
      · exact absurd (ha.trans hb.symm) h
      · simp [optExpLe, ha, hb]
      · simp [optExpLe, ha, hb]
      · have hxy : x ≠ y := fun he => h (by rw [ha, hb, he])
        simp [optExpLe, ha, hb, hxy]
        exact ⟨fun hle => lt_of_le_of_ne hle hxy, le_of_lt⟩

def regW8 : Registration :=
  ⟨12, some "100", none, none, some 739500, true, false, RegistrationStatus.REGISTERED,
   RenewalStatus.ACTIVE, none, none⟩

theorem sync_candidate_selection_witness :
    regW8 ∈ get_registrations_for_sync [regW8] "fips" 5 true ∧
    regW8.is_national = true ∧ regW8.renewal_status = RenewalStatus.ACTIVE ∧
    List.Pairwise (fun a b => sync_le a b = true)
      (get_registrations_for_sync [regW8] "fips" 5 true) := by
  have hmem : regW8 ∈ get_registrations_for_sync [regW8] "fips" 5 true := by
    simp [get_registrations_for_sync, List.mergeSort, regW8, RenewalStatus.ACTIVE]
  have h := sync_candidate_selection [regW8] 5
  exact ⟨hmem, (h.1 regW8 hmem).2.1, (h.1 regW8 hmem).2.2, h.2.1⟩

theorem process_registration_fst (ntype : String) (today : PyDate) (now : Int)
    (channels : Registration → Bool × Bool) (db : List Notif) (r : Registration) :
    (process_registration ntype today now channels db r).1 = db ∨
    ∃ n : Notif, n.registration_id = r.id ∧
      (process_registration ntype today now channels db r).1 = db ++ [n] := by
  unfold process_registration
  split
  · exact Or.inl rfl
  · dsimp only
    split
    · exact Or.inl rfl
    · split
      · exact Or.inl rfl
      · exact Or.inr ⟨_, rfl, rfl⟩

theorem sweep_step_fst (ntype : String) (today : PyDate) (now : Int)
    (channels : Registration → Bool × Bool) (acc : List Notif × SweepStats)
    (r : Registration) :
    (sweep_step ntype today now channels acc r).1 =
      (process_registration ntype today now channels acc.1 r).1 := by
  unfold sweep_step
  dsimp only
  split <;> rfl

theorem sweep_fold_suffix (ntype : String) (today : PyDate) (now : Int)
    (channels : Registration → Bool × Bool) :
    ∀ (cands : List Registration) (acc : List Notif × SweepStats),
      ∃ new, (List.foldl (sweep_step ntype today now channels) acc cands).1 =
        acc.1 ++ new ∧ ∀ n ∈ new, ∃ r ∈ cands, n.registration_id = r.id := by
  intro cands
  induction cands with
  | nil =>
    intro acc
    exact ⟨[], by simp, by simp⟩
  | cons r rest ih =>
    intro acc
    rw [List.foldl_cons]
    obtain ⟨new₁, h1, h2⟩ := ih (sweep_step ntype today now channels acc r)
    have hstep := sweep_step_fst ntype today now channels acc r
    rcases process_registration_fst ntype today now channels acc.1 r with hp | ⟨n, hn, hp⟩
    · refine ⟨new₁, ?_, ?_⟩
      · rw [h1, hstep, hp]
      · intro m hm
        obtain ⟨r', hr', hid⟩ := h2 m hm
        exact ⟨r', List.mem_cons_of_mem _ hr', hid⟩
    · refine ⟨[n] ++ new₁, ?_, ?_⟩
      · rw [h1, hstep, hp]
        simp
      · intro m hm
        rcases List.mem_append.mp hm with hm | hm
        · rw [List.mem_singleton.mp hm]
          exact ⟨r, List.mem_cons_self _ _, hn⟩
        · obtain ⟨r', hr', hid⟩ := h2 m hm
          exact ⟨r', List.mem_cons_of_mem _ hr', hid⟩

theorem expiring_candidates_active (regs : List Registration) (days : Int)
    (today : PyDate) (r : Registration)
    (hr : r ∈ get_expiring_registrations regs days today) :
    r ∈ regs ∧ r.renewal_status = RenewalStatus.ACTIVE := by
  unfold get_expiring_registrations at hr
  rw [List.mem_mergeSort, List.mem_filter] at hr
  refine ⟨hr.1, ?_⟩
  have h2 := hr.2
  rcases hre : r.expiration_date with _ | e <;> rw [hre] at h2
  · cases h2
  · simp only [Bool.and_eq_true, decide_eq_true_eq] at h2
    exact h2.2

/-- C1: a registration whose `renewal_status` is `renewal_filed`,
`not_renewing` or `expired` gains no Notification row from an interval
sweep, whatever the interval and however close its expiration: the rows
carrying its id are exactly the ones that were already there. -/
theorem notification_sweep_suppressed_creates_nothing
    (regs : List Registration) (days : Int) (today : PyDate) (now : Int)
    (channels : Registration → Bool × Bool) (db : List Notif) (rid : Nat)
    (h : ∀ r ∈ regs, r.id = rid →
      r.renewal_status = RenewalStatus.RENEWAL_FILED ∨
      r.renewal_status = RenewalStatus.NOT_RENEWING ∨
      r.renewal_status = RenewalStatus.EXPIRED) :
    (process_notifications_for_interval regs days today now channels db).1.filter
        (fun n => decide (n.registration_id = rid)) =
      db.filter (fun n => decide (n.registration_id = rid)) := by
  unfold process_notifications_for_interval
  obtain ⟨new, hfold, hnew⟩ := sweep_fold_suffix (notification_type_for_interval days)
    today now channels (get_expiring_registrations regs days today)
    (db, ⟨(get_expiring_registrations regs days today).length, 0, 0, 0, 0⟩)
  rw [hfold, List.filter_append]
  have hempty : new.filter (fun n => decide (n.registration_id = rid)) = [] := by
    rw [List.filter_eq_nil_iff]
    intro n hn
    obtain ⟨r, hr, hid⟩ := hnew n hn
    obtain ⟨hmem, hactive⟩ := expiring_candidates_active regs days today r hr
    simp only [decide_eq_true_eq]
    intro hidr
    have hsup := h r hmem (hid.symm.trans hidr)
    rcases hsup with hh | hh | hh <;> rw [hactive] at hh <;> exact absurd hh (by decide)
  rw [hempty, List.append_nil]

def regSupp : Registration :=
  ⟨9, some "200", none, none, some 739010, true, false, RegistrationStatus.REGISTERED,
   RenewalStatus.NOT_RENEWING, none, none⟩

theorem notification_sweep_suppressed_witness :
    (process_notifications_for_interval [regSupp] 30 739000 0
        (fun _ => (true, true)) []).1.filter
        (fun n => decide (n.registration_id = 9)) =
      ([] : List Notif).filter (fun n => decide (n.registration_id = 9)) :=
  notification_sweep_suppressed_creates_nothing [regSupp] 30 739000 0
    (fun _ => (true, true)) [] 9 (by decide)

/-- Two Notification rows of the same `(registration_id, notification_type)`
key lie strictly more than the 7-day dedup window apart. -/
def dedupSeparated (a b : Notif) : Prop :=
  a.registration_id = b.registration_id → a.notification_type = b.notification_type →
    7 * secondsPerDay < |a.created_at - b.created_at|

/-- The wall clocks of a sequence of sweep runs never go backwards. -/
def clocksMono : Int → List SweepRun → Prop
  | _, [] => True
  | t, run :: rest => t ≤ run.now ∧ clocksMono run.now rest

theorem process_registration_dedup (ntype : String) (today : PyDate) (now : Int)
    (channels : Registration → Bool × Bool) (db : List Notif) (r : Registration)
    (hpw : List.Pairwise dedupSeparated db) (hb : ∀ n ∈ db, n.created_at ≤ now) :
    List.Pairwise dedupSeparated (process_registration ntype today now channels db r).1 ∧
    ∀ n ∈ (process_registration ntype today now channels db r).1,
      n.created_at ≤ now := by
  unfold process_registration
  split
  · exact ⟨hpw, hb⟩
  · dsimp only
    split
    · exact ⟨hpw, hb⟩
    · split
      · exact ⟨hpw, hb⟩
      · rename_i hnotex
        constructor
        · rw [List.pairwise_append]
          refine ⟨hpw, List.pairwise_singleton _ _, ?_⟩
          intro a ha n' hn'
          rw [List.mem_singleton] at hn'
          subst hn'
          intro hid htype
          simp only [create_notification] at hid htype
          have hfail : ¬(decide (a.registration_id = r.id) &&
              decide (a.notification_type = ntype) &&
              decide (now - 7 * secondsPerDay ≤ a.created_at)) = true := by
            intro hc
            exact hnotex (by
              unfold check_notification_exists
              rw [List.any_eq_true]
              exact ⟨a, ha, hc⟩)
          simp only [Bool.and_eq_true, decide_eq_true_eq, not_and, not_le] at hfail
          have hlt := hfail ⟨hid, htype⟩
          have hb' := hb a ha
          simp only [create_notification]
          rw [abs_sub_comm, abs_of_nonneg (by simp only [secondsPerDay] at hlt ⊢; omega)]
          simp only [secondsPerDay] at hlt ⊢
          omega
        · intro n hn
          rcases List.mem_append.mp hn with hn | hn
          · exact hb n hn
          · rw [List.mem_singleton.mp hn]
            exact le_refl now

theorem sweep_fold_dedup (ntype : String) (today : PyDate) (now : Int)
    (channels : Registration → Bool × Bool) :
    ∀ (cands : List Registration) (acc : List Notif × SweepStats),
      List.Pairwise dedupSeparated acc.1 → (∀ n ∈ acc.1, n.created_at ≤ now) →
      List.Pairwise dedupSeparated
        (List.foldl (sweep_step ntype today now channels) acc cands).1 ∧
      ∀ n ∈ (List.foldl (sweep_step ntype today now channels) acc cands).1,
        n.created_at ≤ now := by
  intro cands
  induction cands with
  | nil =>
    intro acc h1 h2
    exact ⟨h1, h2⟩
  | cons r rest ih =>
    intro acc h1 h2
    rw [List.foldl_cons]
    have hstep := process_registration_dedup ntype today now channels acc.1 r h1 h2
    apply ih
    · rw [sweep_step_fst]
      exact hstep.1
    · rw [sweep_step_fst]
      exact hstep.2

theorem process_interval_dedup (regs : List Registration) (days : Int) (today : PyDate)
    (now : Int) (channels : Registration → Bool × Bool) (db : List Notif)
    (h1 : List.Pairwise dedupSeparated db) (h2 : ∀ n ∈ db, n.created_at ≤ now) :
    List.Pairwise dedupSeparated
      (process_notifications_for_interval regs days today now channels db).1 ∧
    ∀ n ∈ (process_notifications_for_interval regs days today now channels db).1,
      n.created_at ≤ now := by
  unfold process_notifications_for_interval
  exact sweep_fold_dedup _ _ _ _ _ _ h1 h2

/-- C2: across any sequence of interval sweeps run under a monotone clock,
no two Notification rows of the same `(registration_id, notification_type)`
pair are created within the trailing 7-day dedup window of each other: the
resulting table is pairwise separated by more than 7 days per key. -/
theorem dedup_window_pairwise_separated :
    ∀ (runs : List SweepRun) (db : List Notif) (t : Int),
      List.Pairwise dedupSeparated db → (∀ n ∈ db, n.created_at ≤ t) →
      clocksMono t runs →
      List.Pairwise dedupSeparated (run_sweeps runs db) := by
  intro runs
  induction runs with
  | nil =>
    intro db t h1 _ _
    exact h1
  | cons run rest ih =>
    intro db t h1 h2 hm
    unfold run_sweeps
    rw [List.foldl_cons]
    have h2' : ∀ n ∈ db, n.created_at ≤ run.now := fun n hn => le_trans (h2 n hn) hm.1
    have hstep := process_interval_dedup run.regs run.days run.today run.now
      run.channels db h1 h2'
    exact ih _ run.now hstep.1 hstep.2 hm.2

def regW2 : Registration :=
  ⟨13, some "300", none, none, some 739020, true, false, RegistrationStatus.REGISTERED,
   RenewalStatus.ACTIVE, none, none⟩

theorem dedup_window_pairwise_separated_witness :
    List.Pairwise dedupSeparated
      (run_sweeps [⟨[regW2], 30, 739000, 1000, fun _ => (true, true)⟩] []) :=
  dedup_window_pairwise_separated [⟨[regW2], 30, 739000, 1000, fun _ => (true, true)⟩]
    [] 0 (List.Pairwise.nil) (by simp) ⟨by decide, trivial⟩
